import Mathlib

/-!
Verification of the JMX compiler core of `backend/services/jmx_generator.py`
(class `JMXGeneratorService`).

The Python code is shallowly embedded: every relevant method is translated to a
total Lean function over explicit data (strings as `List Char`-backed `String`,
JSON values as an inductive `Json`, Python dicts as association lists with
Python's construction semantics).  External collaborators are passed in as
parameters:
  * the LLM (`self.llm_service.generate_text`) is an oracle `Nat → String`
    giving the response text of each attempt;
  * `xml.etree.ElementTree.fromstring` is a parameter
    `etParse : String → Except String Unit` (`.error e` models `ET.ParseError`
    with message `e`);
  * `ast.literal_eval` is a parameter `astEval : String → Option Json`;
  * Python's randomized string hash (`hash(p)` in `_assemble_assertions`) is a
    parameter `pyHash : String → Int`.

Python stdlib behaviour that the code leans on (`str.strip`, `str.split`,
`str.count`, `csv.reader`, `json.loads`, `json.dumps`,
`xml.sax.saxutils.escape`, truthiness, `str()` of values) is modelled by the
`py*`-prefixed helpers below.  The `json` model carries integers only: float
literals are not produced by any input in this development and `json_loads`
rejects them (a documented restriction of the embedding, not of the claims).
-/

namespace JmxGen

/-! ### Python string helpers -/

/-- Tail-recursive list length (used for recursion fuel; the accumulator is
forced at each step so that kernel evaluation stays iterative and shallow on
long character lists). -/
def lenTR {α : Type} (acc : Nat) : List α → Nat
  | [] => acc
  | _ :: rest =>
      match acc with
      | 0 => lenTR 1 rest
      | Nat.succ m => lenTR (m + 2) rest

/-- Length via `lenTR`. -/
def listLength {α : Type} (l : List α) : Nat := lenTR 0 l

/-- Python whitespace for `str.strip()`: space, \t, \n, \r, \x0b, \x0c. -/
def isPySpace (c : Char) : Bool :=
  c == ' ' || c == '\t' || c == '\n' || c == '\r' || c == Char.ofNat 11 || c == Char.ofNat 12

def dropLeadingWs : List Char → List Char
  | c :: cs => if isPySpace c then dropLeadingWs cs else c :: cs
  | [] => []

/-- `str.strip()` on the underlying character list. -/
def stripChars (cs : List Char) : List Char :=
  (dropLeadingWs (dropLeadingWs cs).reverse).reverse

/-- Python `s.strip()`. -/
def pyStrip (s : String) : String := String.mk (stripChars s.data)

/-- ASCII lowering; Python `str.lower()` restricted to ASCII letters (all
uses in the source lower ASCII file names / keywords; CJK text is unchanged
by Python's `lower` as well). -/
def lowerChar (c : Char) : Char :=
  if 'A' ≤ c && c ≤ 'Z' then Char.ofNat (c.toNat + 32) else c

/-- Python `s.lower()` (ASCII model). -/
def pyLower (s : String) : String := String.mk (s.data.map lowerChar)

/-- Python `s.startswith(t)`. -/
def pyStartsWith (s t : String) : Bool := t.data.isPrefixOf s.data

/-- Python `s.endswith(t)`. -/
def pyEndsWith (s t : String) : Bool := t.data.isSuffixOf s.data

/-- Count of non-overlapping occurrences, scanning left to right
(Python `s.count(sub)` for non-empty `sub`); `fuel` bounds recursion and
`acc` keeps the recursion tail-call-shaped. -/
def countSubAux (sub : List Char) (acc : Nat) : Nat → List Char → Nat
  | 0, _ => acc
  | _, [] => acc
  | Nat.succ fuel, c :: cs =>
      if sub.isPrefixOf (c :: cs) then
        match acc with
        | 0 => countSubAux sub 1 fuel ((c :: cs).drop sub.length)
        | Nat.succ m => countSubAux sub (m + 2) fuel ((c :: cs).drop sub.length)
      else
        countSubAux sub acc fuel cs

/-- Python `s.count(sub)` for non-empty `sub`. -/
def pyCount (s sub : String) : Nat := countSubAux sub.data 0 (listLength s.data) s.data

/-- Python `sub in s` (substring containment). -/
def pyContains (s sub : String) : Bool := decide (0 < pyCount s sub)

/-- Python `s.split(sep)` for a one-character separator. -/
def splitOnChar (sep : Char) (cs : List Char) : List (List Char) :=
  match cs with
  | [] => [[]]
  | c :: rest =>
      let tail := splitOnChar sep rest
      if c == sep then [] :: tail
      else
        match tail with
        | t :: ts => (c :: t) :: ts
        | [] => [[c]]

/-- Python `s.split(sep)` (single-char separator). -/
def pySplit (s : String) (sep : Char) : List String :=
  (splitOnChar sep s.data).map String.mk

/-- Python `sep.join(parts)`. -/
def pyJoin (sep : String) : List String → String
  | [] => ""
  | [p] => p
  | p :: ps => p ++ sep ++ pyJoin sep ps

/-- `xml.sax.saxutils.escape` on a string: `&`, `<`, `>` only. -/
def xmlEscapeChar (c : Char) : String :=
  if c == '&' then "&amp;" else if c == '<' then "&lt;"
  else if c == '>' then "&gt;" else String.mk [c]

/-- `xml.sax.saxutils.escape(s)`. -/
def xmlEscapeStr (s : String) : String :=
  (s.data.map xmlEscapeChar).foldl (· ++ ·) ""

/-! ### The JSON data model (`json.loads` output values) -/

/-- A Python value as produced by `json.loads`: `None`, `bool`, `int`,
`str`, `list`, `dict` (insertion-ordered association list with unique keys;
see `objInsert`).  Floats are outside this model (see the header comment). -/
inductive Json where
  | null
  | bool (b : Bool)
  | num (n : Int)
  | str (s : String)
  | arr (elems : List Json)
  | obj (pairs : List (String × Json))
deriving BEq, Repr, Inhabited

/-- Python truthiness of such a value. -/
def pyTruthy : Json → Bool
  | .null => false
  | .bool b => b
  | .num n => decide (n ≠ 0)
  | .str s => decide (s ≠ "")
  | .arr es => !es.isEmpty
  | .obj ps => !ps.isEmpty

/-- Python `repr` of a string: quote with a single quote unless the text
contains one and no double quote; escape the backslash and the quote
character (common-case model of CPython's quoting). -/
def pyReprStr (s : String) : String :=
  let sq := Char.ofNat 39
  let dq := Char.ofNat 34
  let q := if s.data.contains sq && !(s.data.contains dq) then dq else sq
  let body := (s.data.map (fun c =>
    if c == Char.ofNat 92 || c == q then String.mk [Char.ofNat 92, c]
    else if c == '\n' then "\\n" else if c == '\r' then "\\r"
    else if c == '\t' then "\\t" else String.mk [c])).foldl (· ++ ·) ""
  String.mk [q] ++ body ++ String.mk [q]

mutual
/-- Python `repr` of a value (used by `str()` on containers). -/
def pyRepr : Json → String
  | .null => "None"
  | .bool b => if b then "True" else "False"
  | .num n => toString n
  | .str s => pyReprStr s
  | .arr es => "[" ++ pyReprArr es ++ "]"
  | .obj ps => "\x7b" ++ pyReprObj ps ++ "\x7d"

def pyReprArr : List Json → String
  | [] => ""
  | [e] => pyRepr e
  | e :: es => pyRepr e ++ ", " ++ pyReprArr es

def pyReprObj : List (String × Json) → String
  | [] => ""
  | [(k, v)] => pyReprStr k ++ ": " ++ pyRepr v
  | (k, v) :: ps => pyReprStr k ++ ": " ++ pyRepr v ++ ", " ++ pyReprObj ps
end

/-- Python `str(value)`: identity on strings, `repr`-like otherwise. -/
def pyStr : Json → String
  | .str s => s
  | v => pyRepr v

/-- Python `dict` insertion: an existing key keeps its position and gets the
new value; a new key is appended. -/
def objInsert (ps : List (String × Json)) (k : String) (v : Json) :
    List (String × Json) :=
  match ps with
  | [] => [(k, v)]
  | (k0, v0) :: rest =>
      if k0 == k then (k0, v) :: rest else (k0, v0) :: objInsert rest k v

/-- Python `d[k]` lookup on a dict built by `objInsert` (keys are unique, so
the first match is the binding). -/
def dictGet (ps : List (String × Json)) (k : String) : Option Json :=
  match ps with
  | [] => none
  | (k0, v0) :: rest => if k0 == k then some v0 else dictGet rest k

/-- Python `d.get(k, default)`. -/
def dictGetD (ps : List (String × Json)) (k : String) (d : Json) : Json :=
  (dictGet ps k).getD d

/-! ### `json.loads` (strict RFC JSON; integers only, see header) -/

/-- JSON whitespace accepted by `json.loads` between tokens. -/
def isJsonWs (c : Char) : Bool := c == ' ' || c == '\t' || c == '\n' || c == '\r'

def skipJsonWs : List Char → List Char
  | c :: cs => if isJsonWs c then skipJsonWs cs else c :: cs
  | [] => []

def isDigitChar (c : Char) : Bool := 48 ≤ c.toNat && c.toNat ≤ 57

/-- Split a maximal digit run off the front. -/
def takeDigitRun (cs : List Char) : List Char × List Char :=
  (cs.takeWhile isDigitChar, cs.dropWhile isDigitChar)

def digitsVal (ds : List Char) : Nat :=
  ds.foldl (fun a c => 10 * a + c.toNat - 48) 0

/-- Value of one hexadecimal digit (for `\uXXXX` escapes). -/
def hexDigitVal (c : Char) : Option Nat :=
  let n := c.toNat
  if 48 ≤ n && n ≤ 57 then some (n - 48)
  else if 97 ≤ n && n ≤ 102 then some (n - 87)
  else if 65 ≤ n && n ≤ 70 then some (n - 55)
  else none

/-- String body after the opening quote: ends at an unescaped quote.
Handles the JSON escapes; a `\uXXXX` becomes the corresponding code point. -/
def parseJsonStrAux (acc : List Char) : List Char → Option (String × List Char)
  | c :: rest =>
      if c == Char.ofNat 34 then some (String.mk acc.reverse, rest)
      else if c == Char.ofNat 92 then
        match rest with
        | 'u' :: a :: b :: c1 :: d :: rest2 =>
            match hexDigitVal a, hexDigitVal b, hexDigitVal c1, hexDigitVal d with
            | some va, some vb, some vc, some vd =>
                parseJsonStrAux (Char.ofNat (((va * 16 + vb) * 16 + vc) * 16 + vd) :: acc) rest2
            | _, _, _, _ => none
        | e :: rest2 =>
            if e == Char.ofNat 34 || e == Char.ofNat 92 || e == '/' then
              parseJsonStrAux (e :: acc) rest2
            else if e == 'n' then parseJsonStrAux ('\n' :: acc) rest2
            else if e == 't' then parseJsonStrAux ('\t' :: acc) rest2
            else if e == 'r' then parseJsonStrAux ('\r' :: acc) rest2
            else if e == 'b' then parseJsonStrAux (Char.ofNat 8 :: acc) rest2
            else if e == 'f' then parseJsonStrAux (Char.ofNat 12 :: acc) rest2
            else none
        | [] => none
      else parseJsonStrAux (c :: acc) rest
  | [] => none

mutual
/-- One JSON value at the head of the input (whitespace already skipped). -/
def parseJsonVal : Nat → List Char → Option (Json × List Char)
  | 0, _ => none
  | Nat.succ fuel, cs =>
      match cs with
      | [] => none
      | c :: rest =>
          if c == Char.ofNat 34 then
            match parseJsonStrAux [] rest with
            | some (s, r) => some (.str s, r)
            | none => none
          else if c == '\x7b' then
            parseJsonObj fuel [] (skipJsonWs rest)
          else if c == '[' then
            parseJsonArr fuel [] (skipJsonWs rest)
          else if c == 't' then
            match rest with
            | 'r' :: 'u' :: 'e' :: r => some (.bool true, r)
            | _ => none
          else if c == 'f' then
            match rest with
            | 'a' :: 'l' :: 's' :: 'e' :: r => some (.bool false, r)
            | _ => none
          else if c == 'n' then
            match rest with
            | 'u' :: 'l' :: 'l' :: r => some (.null, r)
            | _ => none
          else if c == '-' || isDigitChar c then
            let (neg, cs1) := if c == '-' then (true, rest) else (false, c :: rest)
            let (ds, r) := takeDigitRun cs1
            if ds.isEmpty then none
            else if ds.length > 1 && ds.head? == some '0' then none
            else
              match r with
              | '.' :: _ => none
              | 'e' :: _ => none
              | 'E' :: _ => none
              | _ =>
                  let n : Int := (digitsVal ds : Nat)
                  some (.num (if neg then -n else n), r)
          else none

/-- Members of an object after the opening brace (the accumulator holds the
pairs parsed so far, with Python-dict duplicate handling via `objInsert`). -/
def parseJsonObj : Nat → List (String × Json) → List Char → Option (Json × List Char)
  | 0, _, _ => none
  | _, _, [] => none
  | Nat.succ fuel, acc, c :: rest =>
      if c == '\x7d' && acc.isEmpty then some (.obj [], rest)
      else
        if c == Char.ofNat 34 then
          match parseJsonStrAux [] rest with
          | none => none
          | some (k, r1) =>
              match skipJsonWs r1 with
              | ':' :: r2 =>
                  match parseJsonVal fuel (skipJsonWs r2) with
                  | none => none
                  | some (v, r3) =>
                      let acc2 := objInsert acc k v
                      match skipJsonWs r3 with
                      | ',' :: r4 => parseJsonObj fuel acc2 (skipJsonWs r4)
                      | '\x7d' :: r4 => some (.obj acc2, r4)
                      | _ => none
              | _ => none
        else none

/-- Elements of an array after `[`. -/
def parseJsonArr : Nat → List Json → List Char → Option (Json × List Char)
  | 0, _, _ => none
  | _, _, [] => none
  | Nat.succ fuel, acc, c :: rest =>
      if c == ']' && acc.isEmpty then some (.arr [], rest)
      else
        match parseJsonVal fuel (c :: rest) with
        | none => none
        | some (v, r1) =>
            match skipJsonWs r1 with
            | ',' :: r2 => parseJsonArr fuel (v :: acc) (skipJsonWs r2)
            | ']' :: r2 => some (.arr (v :: acc).reverse, r2)
            | _ => none
end

/-- `json.loads(s)`: `none` models `json.JSONDecodeError`. -/
def json_loads (s : String) : Option Json :=
  match parseJsonVal (2 * listLength s.data + 2) (skipJsonWs s.data) with
  | some (v, r) => if (skipJsonWs r).isEmpty then some v else none
  | none => none

/-! ### `json.dumps(..., indent=w, ensure_ascii=False)` -/

/-- JSON string quoting as `json.dumps(..., ensure_ascii=False)` does it:
escape the quote, the backslash and control characters; everything else
(including non-ASCII) verbatim. -/
def jsonQuote (s : String) : String :=
  let body := (s.data.map (fun c =>
    if c == Char.ofNat 34 then String.mk [Char.ofNat 92, Char.ofNat 34]
    else if c == Char.ofNat 92 then String.mk [Char.ofNat 92, Char.ofNat 92]
    else if c == '\n' then "\\n" else if c == '\t' then "\\t"
    else if c == '\r' then "\\r"
    else if c.toNat < 32 then
      "\\u00" ++ String.mk [if c.toNat / 16 == 0 then '0' else '1',
        let d := c.toNat % 16
        if d < 10 then Char.ofNat ('0'.toNat + d) else Char.ofNat ('a'.toNat + d - 10)]
    else String.mk [c])).foldl (· ++ ·) ""
  String.mk [Char.ofNat 34] ++ body ++ String.mk [Char.ofNat 34]

/-- `w` spaces times the level. -/
def indentStr (w lvl : Nat) : String := String.mk (List.replicate (w * lvl) ' ')

mutual
/-- `json.dumps(v, indent=w, ensure_ascii=False)` at nesting level `lvl`. -/
def jsonDumpAux (w lvl : Nat) : Json → String
  | .null => "null"
  | .bool b => if b then "true" else "false"
  | .num n => toString n
  | .str s => jsonQuote s
  | .arr [] => "[]"
  | .arr (e :: es) =>
      "[\n" ++ jsonDumpArr w (lvl + 1) (e :: es) ++ "\n" ++ indentStr w lvl ++ "]"
  | .obj [] => "\x7b\x7d"
  | .obj (p :: ps) =>
      "\x7b\n" ++ jsonDumpObj w (lvl + 1) (p :: ps) ++ "\n" ++ indentStr w lvl ++ "\x7d"

def jsonDumpArr (w lvl : Nat) : List Json → String
  | [] => ""
  | [e] => indentStr w lvl ++ jsonDumpAux w lvl e
  | e :: es => indentStr w lvl ++ jsonDumpAux w lvl e ++ ",\n" ++ jsonDumpArr w lvl es

def jsonDumpObj (w lvl : Nat) : List (String × Json) → String
  | [] => ""
  | [(k, v)] => indentStr w lvl ++ jsonQuote k ++ ": " ++ jsonDumpAux w lvl v
  | (k, v) :: ps =>
      indentStr w lvl ++ jsonQuote k ++ ": " ++ jsonDumpAux w lvl v ++ ",\n" ++
        jsonDumpObj w lvl ps
end

/-- `json.dumps(v, indent=w, ensure_ascii=False)`. -/
def json_dumps (w : Nat) (v : Json) : String := jsonDumpAux w 0 v

/-! ### `csv.reader` (excel dialect: `,` delimiter, `"` quote, doubling) -/

/-- How a field ended: at a delimiter or at the end of the record. -/
inductive CsvSep where
  | comma
  | recordEnd
deriving BEq, Repr

/-- An unquoted field (or the raw tail after a closing quote): characters up
to `,`, a newline (`\n` or `\r\n`) or end of input. -/
def csvUnquoted (acc : List Char) : List Char → List Char × CsvSep × List Char
  | [] => (acc.reverse, .recordEnd, [])
  | c :: rest =>
      if c == ',' then (acc.reverse, .comma, rest)
      else if c == '\r' then
        match rest with
        | '\n' :: r2 => (acc.reverse, .recordEnd, r2)
        | _ => csvUnquoted (c :: acc) rest
      else if c == '\n' then (acc.reverse, .recordEnd, rest)
      else csvUnquoted (c :: acc) rest

/-- The body of a quoted field after the opening `"`: a doubled `""` is a
literal quote; the field ends at the next lone `"` (newlines stay inside). -/
def csvQuoted (acc : List Char) : List Char → List Char × List Char
  | [] => (acc.reverse, [])
  | c :: rest =>
      if c == Char.ofNat 34 then
        match rest with
        | c2 :: r2 =>
            if c2 == Char.ofNat 34 then csvQuoted (c :: acc) r2
            else (acc.reverse, c2 :: r2)
        | [] => (acc.reverse, [])
      else csvQuoted (c :: acc) rest

/-- One record: fields separated by commas until the record ends. -/
def csvRecord : Nat → List Char → List String × List Char
  | 0, cs => ([], cs)
  | Nat.succ fuel, cs =>
      let (field, sep, rest) :=
        match cs with
        | c :: r =>
            if c == Char.ofNat 34 then
              let (f, r2) := csvQuoted [] r
              let (tail, sep, r3) := csvUnquoted f.reverse r2
              (tail, sep, r3)
            else csvUnquoted [] cs
        | [] => csvUnquoted [] cs
      match sep with
      | .comma =>
          let (fs, r4) := csvRecord fuel rest
          (String.mk field :: fs, r4)
      | .recordEnd => ([String.mk field], rest)

/-- All records; a blank line is the empty record `[]`, and a trailing
newline produces no extra record — `csv.reader` behaviour. -/
def csvParseAux : Nat → List Char → List (List String)
  | 0, _ => []
  | _, [] => []
  | Nat.succ fuel, c :: rest =>
      if c == '\n' then [] :: csvParseAux fuel rest
      else if c == '\r' then
        match rest with
        | '\n' :: r2 => [] :: csvParseAux fuel r2
        | _ =>
            let (fs, r) := csvRecord (listLength (c :: rest) + 1) (c :: rest)
            fs :: csvParseAux fuel r
      else
        let (fs, r) := csvRecord (listLength (c :: rest) + 1) (c :: rest)
        fs :: csvParseAux fuel r

/-- `list(csv.reader(io.StringIO(content)))`. -/
def csvParse (content : String) : List (List String) :=
  csvParseAux (listLength content.data + 1) content.data

/-! ### The `CsvInfo` dataclass and `_parameterize_json_body` -/

/-- The `CsvInfo` dataclass (`jmx_generator.py`, lines 26-31). -/
structure CsvInfo where
  filename : String
  variable_names : List String := []
  total_rows : Int := 0
  raw_content : Option String := none
deriving Repr

/-- String-valued Python dict insertion (same semantics as `objInsert`). -/
def strDictInsert (ps : List (String × String)) (k v : String) :
    List (String × String) :=
  match ps with
  | [] => [(k, v)]
  | (k0, v0) :: rest =>
      if k0 == k then (k0, v) :: rest else (k0, v0) :: strDictInsert rest k v

/-- Lookup in such a dict. -/
def strDictGet (ps : List (String × String)) (k : String) : Option String :=
  match ps with
  | [] => none
  | (k0, v0) :: rest => if k0 == k then some v0 else strDictGet rest k

/-- The `value → ${variable}` dict comprehension of `_parameterize_json_body`
(lines 1289-1293): the zipped `(variable, value)` pairs are inserted in
order (later duplicates overwrite), keeping only non-blank values, keyed by
the stripped value, mapped to the placeholder `${variable}`. -/
def buildValueMapAux (acc : List (String × String)) :
    List (String × String) → List (String × String)
  | [] => acc
  | (varName, value) :: rest =>
      if value ≠ "" ∧ pyStrip value ≠ "" then
        buildValueMapAux (strDictInsert acc (pyStrip value) ("$\x7b" ++ varName ++ "\x7d")) rest
      else buildValueMapAux acc rest

/-- The full `value_to_placeholder_map` comprehension. -/
def buildValueMap (pairs : List (String × String)) : List (String × String) :=
  buildValueMapAux [] pairs

/-- The placeholder `${key}` built on a key match (line 1310). -/
def placeholder (k : String) : String := "$\x7b" ++ k ++ "\x7d"

mutual
/-- `recursive_replace` (lines 1302-1333) as a pure function: dict pairs get
the two-tier treatment, list items are only recursed into, scalars at other
positions are untouched. -/
def recReplace (vars : List String) (vmap : List (String × String)) : Json → Json
  | .obj kvs => .obj (recReplacePairs vars vmap kvs)
  | .arr es => .arr (recReplaceItems vars vmap es)
  | v => v

/-- The dict branch: per key/value pair, key match first (replace, no
recursion into the value), else value match on `str(value)` (replace, no
recursion), else recurse — `recReplace` on a scalar is the identity, exactly
as the source only recurses into dict/list values. -/
def recReplacePairs (vars : List String) (vmap : List (String × String)) :
    List (String × Json) → List (String × Json)
  | [] => []
  | (k, v) :: rest =>
      let v2 :=
        if vars.contains k then Json.str (placeholder k)
        else
          match strDictGet vmap (pyStr v) with
          | some ph => Json.str ph
          | none => recReplace vars vmap v
      (k, v2) :: recReplacePairs vars vmap rest

/-- The list branch: recurse into every item (scalar items are unchanged;
they are never value-matched). -/
def recReplaceItems (vars : List String) (vmap : List (String × String)) :
    List Json → List Json
  | [] => []
  | e :: rest => recReplace vars vmap e :: recReplaceItems vars vmap rest
end

/-- The first data row used for the value map: `next(csv_reader, None)` is
called twice on the raw content (header, then first data row). -/
def csvFirstDataRow (raw : String) : Option (List String) :=
  ((csvParse raw).drop 1).head?

/-- The `value_to_placeholder_map` for a `CsvInfo`: built from the zipped
`variable_names`/first-row pair when a (truthy, i.e. non-empty) first data
row exists, else empty (lines 1285-1296). -/
def csvValueMap (csv_info : CsvInfo) : List (String × String) :=
  match csvFirstDataRow (csv_info.raw_content.getD "") with
  | some row =>
      if row.isEmpty then []
      else buildValueMap (csv_info.variable_names.zip row)
  | none => []

/-- `_parameterize_json_body` (lines 1261-1356).  `json_body : Option String`
models the `str`-typed parameter also being passed `None` ("including
None/empty"); the guards, the `json.JSONDecodeError` fallback and the final
`json.dumps(..., indent=4, ensure_ascii=False)` follow the source.  The
blanket `except Exception` at line 1354 also returns `json_body`; the only
such exception reachable from this pure translation's domain is
`RecursionError`, which this total model does not exhibit. -/
def parameterize_json_body (json_body : Option String) (csv_info : CsvInfo) : String :=
  let bodyStr := json_body.getD ""
  if bodyStr = "" ∨ csv_info.raw_content.getD "" = "" ∨ csv_info.variable_names = [] then
    bodyStr
  else
    match json_loads bodyStr with
    | none => bodyStr
    | some dataObj =>
        json_dumps 4 (recReplace csv_info.variable_names (csvValueMap csv_info) dataObj)

mutual
/-- No substitution applies anywhere in a value: no dict key is a variable
name and no dict value's stringified form is a key of the value map,
recursively (the condition under which `recursive_replace` records no
replacement). -/
def noMatch (vars : List String) (vmap : List (String × String)) : Json → Bool
  | .obj kvs => noMatchPairs vars vmap kvs
  | .arr es => noMatchItems vars vmap es
  | _ => true

def noMatchPairs (vars : List String) (vmap : List (String × String)) :
    List (String × Json) → Bool
  | [] => true
  | (k, v) :: rest =>
      !vars.contains k && (strDictGet vmap (pyStr v)).isNone &&
        noMatch vars vmap v && noMatchPairs vars vmap rest

def noMatchItems (vars : List String) (vmap : List (String × String)) :
    List Json → Bool
  | [] => true
  | e :: rest => noMatch vars vmap e && noMatchItems vars vmap rest
end

/-! ### `_safe_process_single_csv` (lines 996-1074) and friends -/

/-- An uploaded-file dict as the processors read it: each key the code looks
up is a field; `content`/`data`/`body`/`text`/`raw_content` may hold any
JSON-like value (the code checks `isinstance(..., str)` where it matters),
`filename`/`name` are the name keys. -/
structure FileInfo where
  filename : Option String := none
  name : Option String := none
  content : Option Json := none
  data : Option Json := none
  body : Option Json := none
  text : Option Json := none
  raw_content : Option Json := none
deriving Repr

/-- The content-string extraction of `_safe_process_single_csv` (lines
1021-1025): the `content` key if it holds a string, else the `data` key if
it holds a string, else the empty string. -/
def csvContentStr (fi : FileInfo) : String :=
  match fi.content with
  | some (.str s) => s
  | _ =>
      match fi.data with
      | some (.str s) => s
      | _ => ""

/-- `file_info.get('filename', file_info.get('name', default))`. -/
def fileInfoName (fi : FileInfo) (dflt : String) : String :=
  fi.filename.getD (fi.name.getD dflt)

/-- The result dict of `_safe_process_single_csv` (lines 1061-1067). -/
structure CsvRecord where
  headers : List String
  sample_data : List (List String)
  total_rows : Nat
  filepath : String
  raw_content : String
deriving Repr, DecidableEq

/-- The header cleaning of line 1041:
`[h.strip() for h in headers if h and h.strip()]`. -/
def cleanedHeaders (headers : List String) : List String :=
  (headers.filter (fun h => h ≠ "" && pyStrip h ≠ "")).map pyStrip

/-- `_safe_process_single_csv` (lines 996-1074): `none` models returning
`None`.  An empty parse (no rows at all) corresponds to the `StopIteration`
branch (lines 1042-1048); it is unreachable for non-blank content but kept
for fidelity. -/
def safe_process_single_csv (fi : FileInfo) : Option CsvRecord :=
  let fname := fileInfoName fi "unknown.csv"
  let content_str := csvContentStr fi
  if content_str = "" ∨ pyStrip content_str = "" then none
  else
    match csvParse content_str with
    | [] => some ⟨[], [], 0, fname, content_str⟩
    | headers :: data_rows =>
        some ⟨cleanedHeaders headers, data_rows.take 5, data_rows.length,
          fname, content_str⟩

/-! ### The JMX component templates (`_load_jmx_templates`, lines 80-231)

Each Python `str.format` template becomes a function of its placeholders
(in order of first appearance); the literal text is copied verbatim. -/

/-- The `xml_header` template (`_load_jmx_templates`). -/
def tmpl_xml_header : String :=
  "<?xml version=\"1.0\" encoding=\"UTF-8\"?>"

/-- The `test_plan_structure` template (`_load_jmx_templates`). -/
def tmpl_test_plan_structure (test_name comments tear_down_on_shutdown content : String) : String :=
  "<jmeterTestPlan version=\"1.2\" properties=\"5.0\" jmeter=\"5.6.3\">\n      <hashTree>\n        <TestPlan guiclass=\"TestPlanGui\" testclass=\"TestPlan\" testname=\"" ++
    test_name ++
    "\" enabled=\"true\">\n          <stringProp name=\"TestPlan.comments\">" ++
    comments ++
    "</stringProp>\n          <boolProp name=\"TestPlan.functional_mode\">false</boolProp>\n          <boolProp name=\"TestPlan.tearDown_on_shutdown\">" ++
    tear_down_on_shutdown ++
    "</boolProp>\n          <boolProp name=\"TestPlan.serialize_threadgroups\">false</boolProp>\n          <elementProp name=\"TestPlan.user_defined_variables\" elementType=\"Arguments\" guiclass=\"ArgumentsPanel\" testclass=\"Arguments\" testname=\"User Defined Variables\" enabled=\"true\">\n            <collectionProp name=\"Arguments.arguments\"/>\n          </elementProp>\n        </TestPlan>\n        <hashTree>\n          " ++
    content ++
    "\n        </hashTree>\n      </hashTree>\n    </jmeterTestPlan>"

/-- The `thread_group` template (`_load_jmx_templates`). -/
def tmpl_thread_group (name on_sample_error loops num_threads ramp_time scheduler duration content : String) : String :=
  "<ThreadGroup guiclass=\"ThreadGroupGui\" testclass=\"ThreadGroup\" testname=\"" ++
    name ++
    "\" enabled=\"true\">\n            <stringProp name=\"ThreadGroup.on_sample_error\">" ++
    on_sample_error ++
    "</stringProp>\n            <elementProp name=\"ThreadGroup.main_controller\" elementType=\"LoopController\" guiclass=\"LoopControlPanel\" testclass=\"LoopController\" testname=\"Loop Controller\" enabled=\"true\">\n              <stringProp name=\"LoopController.loops\">" ++
    loops ++
    "</stringProp>\n              <boolProp name=\"LoopController.continue_forever\">false</boolProp>\n            </elementProp>\n            <stringProp name=\"ThreadGroup.num_threads\">" ++
    num_threads ++
    "</stringProp>\n            <stringProp name=\"ThreadGroup.ramp_time\">" ++
    ramp_time ++
    "</stringProp>\n            <boolProp name=\"ThreadGroup.scheduler\">" ++
    scheduler ++
    "</boolProp>\n            <stringProp name=\"ThreadGroup.duration\">" ++
    duration ++
    "</stringProp>\n            <stringProp name=\"ThreadGroup.delay\"></stringProp>\n            <boolProp name=\"ThreadGroup.same_user_on_next_iteration\">true</boolProp>\n          </ThreadGroup>\n          <hashTree>\n            " ++
    content ++
    "\n          </hashTree>"

/-- The `http_request_with_body` template (`_load_jmx_templates`). -/
def tmpl_http_request_with_body (name body_data path method : String) : String :=
  "<HTTPSamplerProxy guiclass=\"HttpTestSampleGui\" testclass=\"HTTPSamplerProxy\" testname=\"" ++
    name ++
    "\" enabled=\"true\">\n              <boolProp name=\"HTTPSampler.postBodyRaw\">true</boolProp>\n              <elementProp name=\"HTTPsampler.Arguments\" elementType=\"Arguments\">\n                <collectionProp name=\"Arguments.arguments\">\n                  <elementProp name=\"\" elementType=\"HTTPArgument\">\n                    <boolProp name=\"HTTPArgument.always_encode\">false</boolProp>\n                    <stringProp name=\"Argument.value\">" ++
    body_data ++
    "</stringProp>\n                    <stringProp name=\"Argument.metadata\">=</stringProp>\n                  </elementProp>\n                </collectionProp>\n              </elementProp>\n              <stringProp name=\"HTTPSampler.path\">" ++
    path ++
    "</stringProp>\n              <stringProp name=\"HTTPSampler.method\">" ++
    method ++
    "</stringProp>\n              <boolProp name=\"HTTPSampler.follow_redirects\">true</boolProp>\n              <boolProp name=\"HTTPSampler.auto_redirects\">false</boolProp>\n              <boolProp name=\"HTTPSampler.use_keepalive\">true</boolProp>\n              <boolProp name=\"HTTPSampler.DO_MULTIPART_POST\">false</boolProp>\n              <stringProp name=\"HTTPSampler.concurrentPool\">6</stringProp>\n            </HTTPSamplerProxy>"

/-- The `csv_data_set_config` template (`_load_jmx_templates`). -/
def tmpl_csv_data_set_config (delimiter filename ignore_first_line allow_quoted_data recycle share_mode stop_thread variable_names : String) : String :=
  "<CSVDataSet guiclass=\"TestBeanGUI\" testclass=\"CSVDataSet\" testname=\"CSV Data Set Config\" enabled=\"true\">\n              <stringProp name=\"delimiter\">" ++
    delimiter ++
    "</stringProp>\n              <stringProp name=\"fileEncoding\">UTF-8</stringProp>\n              <stringProp name=\"filename\">" ++
    filename ++
    "</stringProp>\n              <boolProp name=\"ignoreFirstLine\">" ++
    ignore_first_line ++
    "</boolProp>\n              <boolProp name=\"quotedData\">" ++
    allow_quoted_data ++
    "</boolProp>\n              <boolProp name=\"recycle\">" ++
    recycle ++
    "</boolProp>\n              <stringProp name=\"shareMode\">" ++
    share_mode ++
    "</stringProp>\n              <boolProp name=\"stopThread\">" ++
    stop_thread ++
    "</boolProp>\n              <stringProp name=\"variableNames\">" ++
    variable_names ++
    "</stringProp>\n            </CSVDataSet>\n            <hashTree/>"

/-- The `http_defaults` template (`_load_jmx_templates`). -/
def tmpl_http_defaults (domain protocol port content_encoding path connect_timeout response_timeout : String) : String :=
  "<ConfigTestElement guiclass=\"HttpDefaultsGui\" testclass=\"ConfigTestElement\" testname=\"HTTP Request Defaults\" enabled=\"true\">\n            <elementProp name=\"HTTPsampler.Arguments\" elementType=\"Arguments\" guiclass=\"HTTPArgumentsPanel\" testclass=\"Arguments\" enabled=\"true\">\n              <collectionProp name=\"Arguments.arguments\"/>\n            </elementProp>\n            <stringProp name=\"HTTPSampler.domain\">" ++
    domain ++
    "</stringProp>\n            <stringProp name=\"HTTPSampler.protocol\">" ++
    protocol ++
    "</stringProp>\n            <stringProp name=\"HTTPSampler.port\">" ++
    port ++
    "</stringProp>\n            <stringProp name=\"HTTPSampler.contentEncoding\">" ++
    content_encoding ++
    "</stringProp>\n            <stringProp name=\"HTTPSampler.path\">" ++
    path ++
    "</stringProp>\n            <stringProp name=\"HTTPSampler.connect_timeout\">" ++
    connect_timeout ++
    "</stringProp>\n            <stringProp name=\"HTTPSampler.response_timeout\">" ++
    response_timeout ++
    "</stringProp>\n          </ConfigTestElement>\n          <hashTree/>"

/-- The `header_manager` template (`_load_jmx_templates`). -/
def tmpl_header_manager (headers : String) : String :=
  "<HeaderManager guiclass=\"HeaderPanel\" testclass=\"HeaderManager\" testname=\"HTTP Header Manager\" enabled=\"true\">\n            <collectionProp name=\"HeaderManager.headers\">\n              " ++
    headers ++
    "\n            </collectionProp>\n          </HeaderManager>\n          <hashTree/>"

/-- The `header_element` template (`_load_jmx_templates`). -/
def tmpl_header_element (name value : String) : String :=
  "<elementProp name=\"\" elementType=\"Header\">\n                <stringProp name=\"Header.name\">" ++
    name ++
    "</stringProp>\n                <stringProp name=\"Header.value\">" ++
    value ++
    "</stringProp>\n              </elementProp>"

/-- The `random_variable_config` template (`_load_jmx_templates`). -/
def tmpl_random_variable_config (name max_value min_value output_format per_thread variable_name : String) : String :=
  "<RandomVariableConfig guiclass=\"TestBeanGUI\" testclass=\"RandomVariableConfig\" testname=\"" ++
    name ++
    "\" enabled=\"true\">\n                <stringProp name=\"maximumValue\">" ++
    max_value ++
    "</stringProp>\n                <stringProp name=\"minimumValue\">" ++
    min_value ++
    "</stringProp>\n                <stringProp name=\"outputFormat\">" ++
    output_format ++
    "</stringProp>\n                <boolProp name=\"perThread\">" ++
    per_thread ++
    "</boolProp>\n                <stringProp name=\"randomSeed\"></stringProp>\n                <stringProp name=\"variableName\">" ++
    variable_name ++
    "</stringProp>\n            </RandomVariableConfig>\n            <hashTree/>"

/-- The `response_assertion` template (`_load_jmx_templates`). -/
def tmpl_response_assertion (name patterns_to_test test_type : String) : String :=
  "<ResponseAssertion guiclass=\"AssertionGui\" testclass=\"ResponseAssertion\" testname=\"" ++
    name ++
    "\" enabled=\"true\">\n                <collectionProp name=\"Asserion.test_strings\">\n                  " ++
    patterns_to_test ++
    "\n                </collectionProp>\n                <stringProp name=\"Assertion.custom_message\"></stringProp>\n                <stringProp name=\"Assertion.test_field\">Assertion.response_data</stringProp>\n                <boolProp name=\"Assertion.assume_success\">false</boolProp>\n                <intProp name=\"Assertion.test_type\">" ++
    test_type ++
    "</intProp>\n            </ResponseAssertion>"

/-- The `assertion_pattern` template (`_load_jmx_templates`). -/
def tmpl_assertion_pattern (hash_code pattern : String) : String :=
  "<stringProp name=\"" ++
    hash_code ++
    "\">" ++
    pattern ++
    "</stringProp>"

/-- The `result_collector` template (`_load_jmx_templates`). -/
def tmpl_result_collector (name : String) : String :=
  "<ResultCollector guiclass=\"ViewResultsFullVisualizer\" testclass=\"ResultCollector\" testname=\"" ++
    name ++
    "\" enabled=\"true\">\n                <boolProp name=\"ResultCollector.error_logging\">false</boolProp>\n                <objProp>\n                  <name>saveConfig</name>\n                  <value class=\"SampleSaveConfiguration\">\n                    <time>true</time>\n                    <latency>true</latency>\n                    <timestamp>true</timestamp>\n                    <success>true</success>\n                    <label>true</label>\n                    <code>true</code>\n                    <message>true</message>\n                    <threadName>true</threadName>\n                    <dataType>true</dataType>\n                    <encoding>false</encoding>\n                    <assertions>true</assertions>\n                    <subresults>true</subresults>\n                    <responseData>false</responseData>\n                    <samplerData>false</samplerData>\n                    <xml>false</xml>\n                    <fieldNames>true</fieldNames>\n                    <responseHeaders>false</responseHeaders>\n                    <requestHeaders>false</requestHeaders>\n                    <responseDataOnError>false</responseDataOnError>\n                    <saveAssertionResultsFailureMessage>true</saveAssertionResultsFailureMessage>\n                    <assertionsResultsToSave>0</assertionsResultsToSave>\n                    <bytes>true</bytes>\n                    <sentBytes>true</sentBytes>\n                    <url>true</url>\n                    <threadCounts>true</threadCounts>\n                    <idleTime>true</idleTime>\n                    <connectTime>true</connectTime>\n                  </value>\n                </objProp>\n                <stringProp name=\"filename\"></stringProp>\n              </ResultCollector>\n              <hashTree/>"

/-- The `thread_group` template after the `.replace` of the assembler (line
1487): `same_user_on_next_iteration` forced from `true` to `false` before
formatting. -/
def tmpl_thread_group_modified (name on_sample_error loops num_threads ramp_time scheduler duration content : String) : String :=
  "<ThreadGroup guiclass=\"ThreadGroupGui\" testclass=\"ThreadGroup\" testname=\"" ++
    name ++
    "\" enabled=\"true\">\n            <stringProp name=\"ThreadGroup.on_sample_error\">" ++
    on_sample_error ++
    "</stringProp>\n            <elementProp name=\"ThreadGroup.main_controller\" elementType=\"LoopController\" guiclass=\"LoopControlPanel\" testclass=\"LoopController\" testname=\"Loop Controller\" enabled=\"true\">\n              <stringProp name=\"LoopController.loops\">" ++
    loops ++
    "</stringProp>\n              <boolProp name=\"LoopController.continue_forever\">false</boolProp>\n            </elementProp>\n            <stringProp name=\"ThreadGroup.num_threads\">" ++
    num_threads ++
    "</stringProp>\n            <stringProp name=\"ThreadGroup.ramp_time\">" ++
    ramp_time ++
    "</stringProp>\n            <boolProp name=\"ThreadGroup.scheduler\">" ++
    scheduler ++
    "</boolProp>\n            <stringProp name=\"ThreadGroup.duration\">" ++
    duration ++
    "</stringProp>\n            <stringProp name=\"ThreadGroup.delay\"></stringProp>\n            <boolProp name=\"ThreadGroup.same_user_on_next_iteration\">false</boolProp>\n          </ThreadGroup>\n          <hashTree>\n            " ++
    content ++
    "\n          </hashTree>"


/-! ### The context dataclasses (lines 33-53) and file-processing records -/

/-- An entry of the `csv_configs` list built by `_safe_process_files`
(lines 587-593). -/
structure CsvConfigEntry where
  filename : String
  variable_names : List String
  total_rows : Nat
  filepath : String
  raw_content : String
deriving Repr

/-- The result dict of `_safe_process_single_json` (lines 1166-1170). -/
structure JsonFileRecord where
  raw_content : String
  parsed : Option Json
  «variables» : List String
deriving Repr

/-- The dict returned by `_safe_process_files` (line 599); `json_contents`
keeps dict insertion order. -/
structure ProcessedFiles where
  csv_configs : List CsvConfigEntry := []
  json_contents : List (String × JsonFileRecord) := []
deriving Repr

/-- The `HttpRequestInfo` dataclass (lines 33-40). -/
structure HttpRequestInfo where
  name : String
  json_body : Option String := none
  source_json_filename : Option String := none
  method : String := "POST"
  is_parameterized : Bool := false
deriving Repr

/-- The `ThreadGroupContext` dataclass (lines 42-46). -/
structure ThreadGroupContext where
  name : String
  http_requests : List HttpRequestInfo := []
  csv_configs : List CsvInfo := []
deriving Repr

/-- The `GenerationContext` dataclass (lines 48-53). -/
structure GenerationContext where
  test_plan_name : String
  thread_groups : List ThreadGroupContext
  requirements : String
  raw_processed_files : ProcessedFiles
deriving Repr

/-! ### Python-dict access on LLM JSON data (raising on non-dicts) -/

/-- `value.get(k)`: `.error` models the `AttributeError`/`TypeError` a
non-dict raises. -/
def pyGet (j : Json) (k : String) : Except Unit (Option Json) :=
  match j with
  | .obj ps => .ok (dictGet ps k)
  | _ => .error ()

/-- `value.get(k, default)`. -/
def pyGetD (j : Json) (k : String) (d : Json) : Except Unit Json :=
  (pyGet j k).map (·.getD d)

/-- `xml.sax.saxutils.escape` applied to an arbitrary value: raises
(`.error`) unless the value is a string. -/
def pyEscapeJson : Json → Except Unit String
  | .str s => .ok (xmlEscapeStr s)
  | _ => .error ()

/-- Python `for x in value`: lists yield elements, strings yield their
characters, dicts yield their keys, anything else raises `TypeError`. -/
def iterElems : Json → Except Unit (List Json)
  | .arr es => .ok es
  | .str s => .ok (s.data.map (fun c => .str (String.mk [c])))
  | .obj ps => .ok (ps.map (fun p => Json.str p.1))
  | _ => .error ()

/-- Python `hash(value)` for the hashable values (parameterized by the
per-process string hash `H`); lists/dicts raise. -/
def pyHashJson (H : String → Int) : Json → Except Unit Int
  | .str s => .ok (H s)
  | .num n => .ok n
  | .bool b => .ok (if b then 1 else 0)
  | .null => .ok 0
  | .arr _ => .error ()
  | .obj _ => .error ()

/-- Json-keyed dict insertion (position preserved, value updated). -/
def jsonDictInsert (ps : List (Json × Json)) (k v : Json) : List (Json × Json) :=
  match ps with
  | [] => [(k, v)]
  | (k0, v0) :: rest =>
      if k0 == k then (k0, v) :: rest else (k0, v0) :: jsonDictInsert rest k v

/-- Json-keyed dict lookup. -/
def jsonDictGet (ps : List (Json × Json)) (k : Json) : Option Json :=
  match ps with
  | [] => none
  | (k0, v0) :: rest => if k0 == k then some v0 else jsonDictGet rest k

/-- The `{x.get("name"): x for x in ... if x.get("name")}` comprehensions
(lines 1421 and 1450): name-keyed dict of the truthy-named entries. -/
def buildNameDict (acc : List (Json × Json)) : List Json → Except Unit (List (Json × Json))
  | [] => .ok acc
  | tg :: rest => do
      let nameV ← pyGetD tg "name" .null
      if pyTruthy nameV then buildNameDict (jsonDictInsert acc nameV tg) rest
      else buildNameDict acc rest

/-! ### `_assemble_assertions` (lines 1523-1557) -/

/-- The pattern comprehension (lines 1539-1544):
`[assertion_pattern.format(hash_code=str(hash(p)), pattern=escape(p)) for p
in patterns_list if p]`. -/
def assemblePatterns (H : String → Int) : List Json → Except Unit (List String)
  | [] => .ok []
  | p :: rest =>
      if pyTruthy p then do
        let h ← pyHashJson H p
        let e ← pyEscapeJson p
        let tail ← assemblePatterns H rest
        pure (tmpl_assertion_pattern (toString h) e :: tail)
      else assemblePatterns H rest

/-- One entry of the assertions loop body; `none` models `continue`. -/
def assembleOneAssertion (H : String → Int) (d : Json) : Except Unit (Option String) := do
  if ¬ pyTruthy d then return none
  let nameV ← pyGetD d "name" .null
  if ¬ pyTruthy nameV then return none
  let patternsV ← pyGetD d "patterns" (.arr [])
  if ¬ pyTruthy patternsV then return none
  let pElems ← iterElems patternsV
  let parts ← assemblePatterns H pElems
  if parts.isEmpty then return none
  let nameDflt ← pyGetD d "name" (.str "Response Assertion")
  let nameEsc ← pyEscapeJson nameDflt
  let testType ← pyGetD d "test_type" (.num 2)
  let full := tmpl_response_assertion nameEsc
    (pyJoin "\n                  " parts) (pyStr testType)
  return some (full ++ "\n              <hashTree/>")

/-- The loop over `assertions_data`. -/
def assembleAssertionList (H : String → Int) : List Json → Except Unit (List String)
  | [] => .ok []
  | d :: rest => do
      let o ← assembleOneAssertion H d
      let tail ← assembleAssertionList H rest
      pure (match o with | some s => s :: tail | none => tail)

/-- `_assemble_assertions(assertions_data)` (lines 1523-1557); the
`test_field` format argument of the source call has no placeholder in the
template and is therefore ignored by `str.format`. -/
def assemble_assertions (H : String → Int) (assertions_data : Json) :
    Except Unit String :=
  if ¬ pyTruthy assertions_data then .ok ""
  else do
    let elems ← iterElems assertions_data
    let parts ← assembleAssertionList H elems
    pure (pyJoin "\n              " parts)

/-! ### `_assemble_jmx_from_structured_data` (lines 1358-1521) -/

/-- The forced CSV emission (lines 1437-1443): path rewritten to
`..\TestData\`, delimiter `,`, `ignoreFirstLine` forced `"true"`,
`quotedData` `"false"`, `recycle` `"true"`, `shareMode.all`,
`stopThread` `"false"`. -/
def assembleCsvConfig (c : CsvInfo) : String :=
  tmpl_csv_data_set_config "," ("..\\TestData\\" ++ c.filename) "true" "false"
    "true" "shareMode.all" "false" (pyJoin "," c.variable_names)

/-- One HTTP request of the loop (lines 1452-1483); `none` models the
`continue` when the LLM data has no entry for the request name. -/
def assembleRequest (H : String → Int) (all_llm_reqs : List (Json × Json))
    (req : HttpRequestInfo) : Except Unit (Option String) := do
  let req_data := (jsonDictGet all_llm_reqs (.str req.name)).getD (.obj [])
  if ¬ pyTruthy req_data then return none
  let assertionsV ← pyGetD req_data "assertions" (.arr [])
  let assertions_xml ← assemble_assertions H assertionsV
  let sampler_children := if assertions_xml ≠ "" then [assertions_xml] else []
  let body_content :=
    match req.json_body with
    | some s => if s = "" then "\x7b\x7d" else s
    | none => "\x7b\x7d"
  let escaped_body := xmlEscapeStr body_content
  let pathV ← pyGetD req_data "path" (.str "/rest")
  let pathEsc ← pyEscapeJson pathV
  let methodV ← pyGetD req_data "method" (.str "POST")
  let http_xml := tmpl_http_request_with_body (xmlEscapeStr req.name)
    escaped_body pathEsc (pyStr methodV)
  if sampler_children.isEmpty then
    return some (http_xml ++ "\n            <hashTree/>")
  else
    return some (http_xml ++ "\n            <hashTree>\n              " ++
      pyJoin "\n              " sampler_children ++ "\n            </hashTree>")

/-- The request loop of a thread group. -/
def assembleRequestList (H : String → Int) (all_llm_reqs : List (Json × Json)) :
    List HttpRequestInfo → Except Unit (List String)
  | [] => .ok []
  | req :: rest => do
      let o ← assembleRequest H all_llm_reqs req
      let tail ← assembleRequestList H all_llm_reqs rest
      pure (match o with | some s => s :: tail | none => tail)

/-- One thread group (lines 1423-1503): CSV children first, then request
children, joined and wrapped in the `same_user`-modified template with the
LLM-supplied or default expression fields. -/
def assembleThreadGroup (H : String → Int) (all_llm_tgs : List (Json × Json))
    (tg : ThreadGroupContext) : Except Unit String := do
  let tg_data := (jsonDictGet all_llm_tgs (.str tg.name)).getD (.obj [])
  let csvChildren := tg.csv_configs.map assembleCsvConfig
  let children ←
    if tg.http_requests.isEmpty then pure csvChildren
    else do
      let reqsV ← pyGetD tg_data "http_requests" (.arr [])
      let reqElems ← iterElems reqsV
      let reqDict ← buildNameDict [] reqElems
      let reqXmls ← assembleRequestList H reqDict tg.http_requests
      pure (csvChildren ++ reqXmls)
  let content := pyJoin "\n            " children
  let onErr := pyStr (← pyGetD tg_data "on_sample_error" (.str "continue"))
  let loops := pyStr (← pyGetD tg_data "loops" (.str "$\x7b__P(loop,-1)\x7d"))
  let numThreads := pyStr (← pyGetD tg_data "num_threads" (.str "$\x7b__P(threads,3)\x7d"))
  let rampTime := pyStr (← pyGetD tg_data "ramp_time" (.str "$\x7b__P(rampUp,1)\x7d"))
  let scheduler := pyLower (pyStr (← pyGetD tg_data "scheduler" (.str "true")))
  let duration := pyStr (← pyGetD tg_data "duration" (.str "$\x7b__P(duration,10)\x7d"))
  pure (tmpl_thread_group_modified (xmlEscapeStr tg.name) onErr loops numThreads
    rampTime scheduler duration content)

/-- The thread-group loop over the context. -/
def assembleThreadGroupList (H : String → Int) (all_llm_tgs : List (Json × Json)) :
    List ThreadGroupContext → Except Unit (List String)
  | [] => .ok []
  | tg :: rest => do
      let x ← assembleThreadGroup H all_llm_tgs tg
      let tail ← assembleThreadGroupList H all_llm_tgs rest
      pure (x :: tail)

/-- The header-element comprehension (lines 1372-1377). -/
def assembleHeaderParts : List Json → Except Unit (List String)
  | [] => .ok []
  | h :: rest => do
      let keep ←
        if ¬ pyTruthy h then pure (none : Option String)
        else do
          let nv ← pyGetD h "name" .null
          if ¬ pyTruthy nv then pure none
          else do
            let nameV ← pyGetD h "name" (.str "")
            let valueV ← pyGetD h "value" (.str "")
            let ne ← pyEscapeJson nameV
            let ve ← pyEscapeJson valueV
            pure (some (tmpl_header_element ne ve))
      let tail ← assembleHeaderParts rest
      pure (match keep with | some s => s :: tail | none => tail)

/-- The global Header Manager component (lines 1370-1382): zero or one
element. -/
def headerManagerComponent (tpd : Json) : Except Unit (List String) := do
  let gh ← pyGetD tpd "global_headers" (.arr [])
  if ¬ pyTruthy gh then pure []
  else do
    let elems ← iterElems gh
    let parts ← assembleHeaderParts elems
    if parts.isEmpty then pure []
    else pure [tmpl_header_manager (pyJoin "\n              " parts)]

/-- The HTTP Request Defaults component (lines 1384-1401): emitted only
when `http_defaults` is truthy AND carries a truthy `domain`; otherwise
nothing is emitted (no error is raised). -/
def httpDefaultsComponent (tpd : Json) : Except Unit (List String) := do
  let hd ← pyGetD tpd "http_defaults" (.obj [])
  if ¬ pyTruthy hd then pure []
  else do
    let domainV ← pyGetD hd "domain" .null
    if ¬ pyTruthy domainV then pure []
    else do
      let ct := pyStr (← pyGetD hd "connect_timeout" (.num 5000))
      let rt := pyStr (← pyGetD hd "response_timeout" (.num 5000))
      let domain := pyStr (← pyGetD hd "domain" (.str ""))
      let protocol := pyStr (← pyGetD hd "protocol" (.str "https"))
      let port := pyStr (← pyGetD hd "port" (.str ""))
      let path := pyStr (← pyGetD hd "path" (.str ""))
      pure [tmpl_http_defaults domain protocol port "UTF-8" path
        ("$\x7b__P(connTimeOut," ++ ct ++ ")\x7d")
        ("$\x7b__P(respTimeOut," ++ rt ++ ")\x7d")]

/-- One random-variable component (lines 1406-1418). -/
def randomVarComponent (rv_data : Json) : Except Unit (Option String) := do
  if ¬ pyTruthy rv_data then return none
  let vn ← pyGetD rv_data "variable_name" .null
  if ¬ pyTruthy vn then return none
  let nameEsc ← pyEscapeJson (← pyGetD rv_data "name" (.str "Random Variable"))
  let vnEsc ← pyEscapeJson (← pyGetD rv_data "variable_name" (.str ""))
  let outFmt := pyStr (← pyGetD rv_data "output_format" (.str ""))
  let minV := pyStr (← pyGetD rv_data "min_value" (.str "1"))
  let maxV := pyStr (← pyGetD rv_data "max_value" (.str "99999999"))
  return some (tmpl_random_variable_config nameEsc maxV minV outFmt "false" vnEsc)

/-- The random-variables loop (lines 1403-1418). -/
def randomVarsComponents (tpd : Json) : Except Unit (List String) := do
  let rv ← pyGetD tpd "random_variables" (.arr [])
  if ¬ pyTruthy rv then pure []
  else do
    let elems ← iterElems rv
    randomVarsLoop elems
where randomVarsLoop : List Json → Except Unit (List String)
  | [] => .ok []
  | r :: rest => do
      let o ← randomVarComponent r
      let tail ← randomVarsLoop rest
      pure (match o with | some s => s :: tail | none => tail)

/-- `_assemble_jmx_from_structured_data` (lines 1358-1521): globals, then
one thread group per context entry, then the fixed View Results Tree
listener, joined into the test-plan structure behind the XML header. -/
def assemble_jmx_from_structured_data (H : String → Int) (tpd : Json)
    (ctx : GenerationContext) : Except Unit String := do
  let hm ← headerManagerComponent tpd
  let hd ← httpDefaultsComponent tpd
  let rv ← randomVarsComponents tpd
  let tgsV ← pyGetD tpd "thread_groups" (.arr [])
  let tgElems ← iterElems tgsV
  let all_llm_tgs ← buildNameDict [] tgElems
  let tgXmls ← assembleThreadGroupList H all_llm_tgs ctx.thread_groups
  let components := hm ++ hd ++ rv ++ tgXmls ++ [tmpl_result_collector "View Results Tree"]
  let final_content := pyJoin "\n          " components
  let tear := pyLower (pyStr (← pyGetD tpd "tear_down_on_shutdown" (.str "true")))
  let final_jmx := tmpl_test_plan_structure (xmlEscapeStr ctx.test_plan_name)
    "Generated by a universal JMXGeneratorService." tear final_content
  pure (tmpl_xml_header ++ "\n" ++ final_jmx)

/-! ### `validate_xml` (lines 1230-1259)

`xml.etree.ElementTree.fromstring` is modelled by the parameter
`etParse : String → Except String Unit`; `.error e` is an `ET.ParseError`
whose `str()` is `e`.  The validator only reads the document and returns a
`(bool, reason)` pair — it has no way to modify or repair its input. -/

/-- Reason string of check (a) (line 1236). -/
def vmsgEmpty : String := "XML content is empty or whitespace."

/-- Reason string of check (b) (line 1240). -/
def vmsgDecl : String := "Validation failed: Missing XML declaration \x27<?xml ...?>\x27."

/-- Reason string of check (c) (line 1242). -/
def vmsgEnd : String := "Validation failed: Content does not end with \x27</jmeterTestPlan>\x27."

/-- Reason string of check (d) (line 1247), with the two counts interpolated. -/
def vmsgHash (o c : Nat) : String :=
  "Validation failed: Mismatched <hashTree> tags (open: " ++
    (toString o ++ (", close: " ++ (toString c ++ ").")))

/-- `error_line` of the `ET.ParseError` handler (line 1254):
`str(e).split(",")[1].strip() if "," in str(e) else str(e)`. -/
def etErrorLine (e : String) : String :=
  if pyContains e "," then pyStrip (((pySplit e ',').drop 1).headD "") else e

/-- Reason string of check (e) (line 1256). -/
def vmsgParse (e : String) : String :=
  "XML ParseError: The generated XML is not well-formed. Details: " ++ etErrorLine e

/-- Success message (line 1251). -/
def vmsgOk : String := "XML validation successful."

/-- `validate_xml` (lines 1230-1259): the five checks in source order,
short-circuiting on the first failure. -/
def validate_xml (etParse : String → Except String Unit) (xml_content : String) :
    Bool × String :=
  if pyStrip xml_content = "" then (false, vmsgEmpty)
  else
    let content := pyStrip xml_content
    if ¬ pyStartsWith content "<?xml" then (false, vmsgDecl)
    else if ¬ pyEndsWith content "</jmeterTestPlan>" then (false, vmsgEnd)
    else
      let openTags := pyCount content "<hashTree>"
      let closeTags := pyCount content "</hashTree>"
      if openTags ≠ closeTags then (false, vmsgHash openTags closeTags)
      else
        match etParse content with
        | .ok _ => (true, vmsgOk)
        | .error e => (false, vmsgParse e)

/-! ### `_analyze_requirements_dynamically` (lines 607-659)

The three regular expressions are implemented as dedicated matchers with
Python `re` semantics (leftmost match, greedy with backtracking, `\b` word
boundaries, non-overlapping `findall`). -/

/-- `\w` of the patterns (ASCII word character). -/
def isWordChar (c : Char) : Bool :=
  ('A' ≤ c && c ≤ 'Z') || ('a' ≤ c && c ≤ 'z') || ('0' ≤ c && c ≤ '9') || c == '_'

def isUpperChar (c : Char) : Bool := 'A' ≤ c && c ≤ 'Z'

/-- The `[-A-Z0-9]` class. -/
def isTailClass (c : Char) : Bool :=
  c == '-' || isUpperChar c || ('0' ≤ c && c ≤ '9')

/-- The `[A-Za-z0-9_-]` class of the file-name patterns under
`re.IGNORECASE`. -/
def isFileClass (c : Char) : Bool :=
  isWordChar c || c == '-'

/-- `\b` between two optional characters (start/end of string count as
non-word). -/
def isBoundary (a b : Option Char) : Bool :=
  (a.map isWordChar).getD false != (b.map isWordChar).getD false

/-- Backtracking over the greedy `[-A-Z0-9]+` tail: the largest `m ≥ 1`
whose end position is a word boundary. -/
def tryTailRun (t after : List Char) : Nat → Option Nat
  | 0 => none
  | Nat.succ m1 =>
      let m := m1 + 1
      let lastC := t.get? (m - 1)
      let nextC := if m < t.length then t.get? m else after.head?
      if isBoundary lastC nextC then some m else tryTailRun t after m1

/-- Backtracking over the greedy `[A-Z]{2,}`: the largest `k ≥ 2` followed
by `[-C]` and a boundary-terminated tail run. -/
def tryUpperK (cs : List Char) : Nat → Option (Nat × Nat)
  | 0 => none
  | Nat.succ k1 =>
      let k := k1 + 1
      if k < 2 then none
      else
        match cs.get? k with
        | some c =>
            if c == '-' || c == 'C' then
              let t := (cs.drop (k + 1)).takeWhile isTailClass
              let after := (cs.drop (k + 1)).drop t.length
              match tryTailRun t after t.length with
              | some m => some (k, m)
              | none => tryUpperK cs k1
            else tryUpperK cs k1
        | none => tryUpperK cs k1

/-- `re.findall(r"\b[A-Z]{2,}[-C][-A-Z0-9]+\b", s)`: scan left to right,
matching greedily with backtracking, non-overlapping. -/
def findUpperTokensAux : Nat → Option Char → List Char → List String
  | 0, _, _ => []
  | _, _, [] => []
  | Nat.succ fuel, prev, c :: rest =>
      let cs := c :: rest
      let attempt : Option (String × Option Char × List Char) :=
        if isUpperChar c && !((prev.map isWordChar).getD false) then
          let u := cs.takeWhile isUpperChar
          match tryUpperK cs u.length with
          | some (k, m) =>
              let tok := cs.take (k + 1 + m)
              some (String.mk tok, tok.getLast?, cs.drop (k + 1 + m))
          | none => none
        else none
      match attempt with
      | some (tok, lastC, restAfter) => tok :: findUpperTokensAux fuel lastC restAfter
      | none => findUpperTokensAux fuel (some c) rest

/-- All `\b[A-Z]{2,}[-C][-A-Z0-9]+\b` matches of a string. -/
def findUpperTokens (s : String) : List String :=
  findUpperTokensAux (listLength s.data) none s.data

/-- `re.findall(r"([A-Z0-9_-]+\.json)", s, re.IGNORECASE)` (and the `.csv`
variant): a maximal run of the class followed by a dot and the extension,
case-insensitively, keeping the original characters. -/
def findFileTokensAux (ext : List Char) : Nat → List Char → List String
  | 0, _ => []
  | _, [] => []
  | Nat.succ fuel, c :: rest =>
      if isFileClass c then
        let run := (c :: rest).takeWhile isFileClass
        let after := (c :: rest).drop run.length
        let dotExt := after.take (1 + ext.length)
        if dotExt.head? == some '.' &&
            ((dotExt.drop 1).map lowerChar) == ext then
          String.mk (run ++ dotExt) ::
            findFileTokensAux ext fuel (after.drop (1 + ext.length))
        else
          findFileTokensAux ext fuel after
      else
        findFileTokensAux ext fuel rest

/-- All file-name tokens with the given (lower-case) extension. -/
def findFileTokens (s : String) (ext : String) : List String :=
  findFileTokensAux ext.data (listLength s.data) s.data

/-- First index of `sub` in `cs` (for the lazy `.*?` searches). -/
def findSubIdx (sub : List Char) : Nat → List Char → Option Nat
  | 0, _ => none
  | _, [] => if sub.isEmpty then some 0 else none
  | Nat.succ fuel, c :: rest =>
      if sub.isPrefixOf (c :: rest) then some 0
      else (findSubIdx sub fuel rest).map (· + 1)

/-- The capture `[『「]([^』」]+)[』」]`: at the first opening quote whose
greedy non-closing run is non-empty and followed by a closing quote. -/
def findQuoteCapture : Nat → List Char → Option String
  | 0, _ => none
  | _, [] => none
  | Nat.succ fuel, c :: rest =>
      if c == '『' || c == '「' then
        let body := rest.takeWhile (fun x => !(x == '』' || x == '」'))
        let next := (rest.drop body.length).head?
        if !body.isEmpty && (next == some '』' || next == some '」') then
          some (String.mk body)
        else findQuoteCapture fuel rest
      else findQuoteCapture fuel rest

/-- `re.search(r"測試計畫.*?名稱.*?[『「]([^』」]+)[』」]", requirements)`:
the lazy quantifiers make each stage take its earliest completion, and a
later start can never succeed where an earlier one failed, so the search is
three nested first-occurrence scans. -/
def findTestPlanName (req : String) : Option String := do
  let cs := req.data
  let i ← findSubIdx "測試計畫".data (listLength cs) cs
  let a1 := cs.drop (i + 4)
  let j ← findSubIdx "名稱".data (listLength a1) a1
  let a2 := a1.drop (j + 2)
  findQuoteCapture (listLength a2) a2

/-- The analysis dict of `_analyze_requirements_dynamically`. -/
structure ReqAnalysis where
  test_plan_name : String
  thread_groups : List String
  http_requests : List String
  json_files : List String
  csv_files : List String
deriving Repr

/-- Insertion into an ascending list (Python string `<` is code-point
lexicographic, as is Lean's). -/
def insertSorted (x : String) : List String → List String
  | [] => [x]
  | y :: ys => if x < y then x :: y :: ys else y :: insertSorted x ys

/-- Ascending sort. -/
def sortStrings (l : List String) : List String := l.foldr insertSorted []

/-- `sorted(list(set(l)))`. -/
def sortedDedup (l : List String) : List String := sortStrings l.eraseDups

/-- `_analyze_requirements_dynamically` (lines 607-659). -/
def analyze_requirements_dynamically (requirements : String) : ReqAnalysis :=
  let tpn :=
    match findTestPlanName requirements with
    | some n => pyStrip n
    | none => "Generated Test Plan"
  let potential := findUpperTokens requirements
  let lines := pySplit requirements '\n'
  let tgLines := lines.filter (fun l =>
    pyContains (pyLower l) "thread group" || pyContains l "執行緒群組")
  let tgs := (tgLines.map findUpperTokens).foldr (· ++ ·) []
  let httpLines := lines.filter (fun l =>
    pyContains (pyLower l) "http request" || pyContains l "http 請求")
  let https := (httpLines.map findUpperTokens).foldr (· ++ ·) []
  let tgs2 := if tgs.isEmpty then potential else tgs
  let https2 := if https.isEmpty then potential else https
  { test_plan_name := tpn,
    thread_groups := sortedDedup tgs2,
    http_requests := sortedDedup https2,
    json_files := sortedDedup (findFileTokens requirements "json"),
    csv_files := sortedDedup (findFileTokens requirements "csv") }

/-! ### `_process_json_files` / `_safe_process_files` (lines 567-605,
1096-1228) -/

/-- Generic Python-dict insertion with string keys. -/
def assocInsert {α : Type} (ps : List (String × α)) (k : String) (v : α) :
    List (String × α) :=
  match ps with
  | [] => [(k, v)]
  | (k0, v0) :: rest =>
      if k0 == k then (k0, v) :: rest else (k0, v0) :: assocInsert rest k v

/-- Generic lookup. -/
def assocGet {α : Type} (ps : List (String × α)) (k : String) : Option α :=
  match ps with
  | [] => none
  | (k0, v0) :: rest => if k0 == k then some v0 else assocGet rest k

/-- `_extract_data_content` (lines 1179-1189): `None` for falsy data, a
pretty-printed dump for dicts, the string itself for strings, `str(...)`
otherwise. -/
def extract_data_content : Option Json → Option Json
  | none => none
  | some d =>
      if ¬ pyTruthy d then none
      else
        match d with
        | .obj ps => some (.str (json_dumps 2 (.obj ps)))
        | .str s => some (.str s)
        | v => some (.str (pyStr v))

/-- One content strategy (lines 1136-1144): a truthy extracted value is
stringified unless already a string. -/
def strategyContent : Option Json → Option String
  | some j => if pyTruthy j then some (pyStr j) else none
  | none => none

/-- The five-strategy content extraction of `_safe_process_single_json`
(lines 1128-1148). -/
def jsonContentStr (fi : FileInfo) : String :=
  ((strategyContent fi.content).orElse (fun _ =>
    (strategyContent (extract_data_content fi.data)).orElse (fun _ =>
      (strategyContent fi.body).orElse (fun _ =>
        (strategyContent fi.text).orElse (fun _ =>
          strategyContent fi.raw_content))))).getD ""

mutual
/-- `_clean_json_values` (lines 1191-1202): the identity on every value of
this float-free model (NaN/Inf floats, the only rewritten values, cannot
occur). -/
def clean_json_values : Json → Json
  | .obj kvs => .obj (cleanJsonPairs kvs)
  | .arr es => .arr (cleanJsonItems es)
  | v => v

def cleanJsonPairs : List (String × Json) → List (String × Json)
  | [] => []
  | (k, v) :: rest => (k, clean_json_values v) :: cleanJsonPairs rest

def cleanJsonItems : List Json → List Json
  | [] => []
  | e :: rest => clean_json_values e :: cleanJsonItems rest
end

mutual
/-- `_extract_json_variables` (lines 1204-1228): dict values that are
`${name}` strings contribute `name` once, in traversal order; dicts and
lists are recursed into. -/
def extractVars (acc : List String) : Json → List String
  | .obj kvs => extractVarsPairs acc kvs
  | .arr es => extractVarsItems acc es
  | _ => acc

def extractVarsPairs (acc : List String) : List (String × Json) → List String
  | [] => acc
  | (_, v) :: rest =>
      let acc2 :=
        match v with
        | .str s =>
            if pyStartsWith s "$\x7b" && pyEndsWith s "\x7d" then
              let nm := String.mk (s.data.drop 2).dropLast
              if nm ≠ "" && !acc.contains nm then acc ++ [nm] else acc
            else acc
        | .obj kvs => extractVarsPairs acc kvs
        | .arr es => extractVarsItems acc es
        | _ => acc
      extractVarsPairs acc2 rest

def extractVarsItems (acc : List String) : List Json → List String
  | [] => acc
  | e :: rest => extractVarsItems (extractVars acc e) rest
end

/-- `_extract_json_variables(json_obj)` top-level call. -/
def extract_json_variables (j : Json) : List String := extractVars [] j

/-- `_safe_process_single_json` (lines 1119-1177). -/
def safe_process_single_json (fi : FileInfo) : Option JsonFileRecord :=
  let content := jsonContentStr fi
  if content = "" then none
  else
    let parsed := json_loads content
    let cleaned :=
      match parsed with
      | some p => if pyTruthy p then some (clean_json_values p) else none
      | none => none
    let vars :=
      match cleaned with
      | some c => if pyTruthy c then extract_json_variables c else []
      | none => []
    some ⟨content, cleaned, vars⟩

/-- `_process_json_files` (lines 1096-1117). -/
def process_json_files : List FileInfo → List (String × JsonFileRecord)
  | [] => []
  | fi :: rest =>
      let tail := process_json_files rest
      let filename := fileInfoName fi ""
      if filename = "" || !(pyEndsWith (pyLower filename) ".json") then tail
      else
        match safe_process_single_json fi with
        | some r => assocInsert tail filename r
        | none => tail

/-- `_process_csv_files` (lines 954-994). -/
def process_csv_files : List FileInfo → List (String × CsvRecord)
  | [] => []
  | fi :: rest =>
      let tail := process_csv_files rest
      let filename := fileInfoName fi ""
      if filename = "" || !(pyEndsWith (pyLower filename) ".csv") then tail
      else
        match safe_process_single_csv fi with
        | some r => assocInsert tail filename r
        | none => tail

/-- `_safe_process_files` (lines 567-605); the result dicts keep insertion
order, and every successful CSV record becomes a `csv_configs` entry (no
record of this model carries an `error` key). -/
def safe_process_files (files_data : Option (List FileInfo)) : ProcessedFiles :=
  match files_data with
  | none => {}
  | some [] => {}
  | some fs =>
      let csv := process_csv_files fs
      let json := process_json_files fs
      { csv_configs := csv.map (fun p =>
          ⟨p.1, p.2.headers, p.2.total_rows, p.2.filepath, p.2.raw_content⟩),
        json_contents := json }

/- NOTE: the dict insertion above is applied to the recursion's tail; since
`process_*_files` recurses on the head first, insertion order is the file
order, as in the source. -/

/-! ### `_prepare_generation_context` (lines 442-521) -/

/-- The per-thread-group body of the preparation loop, threading the
used-file sets. -/
def prepareTgLoop (processed : ProcessedFiles) (httpReqs all_json all_csv : List String) :
    List String → List String → List String → List ThreadGroupContext
  | [], _, _ => []
  | tg_name :: rest, usedJson, usedCsv =>
      let json_filename :=
        match (all_json.filter (fun f => pyContains f tg_name && !usedJson.contains f)).head? with
        | some f => some f
        | none => (all_json.filter (fun f => !usedJson.contains f)).head?
      let csv_filename :=
        match (all_csv.filter (fun f => pyContains f tg_name && !usedCsv.contains f)).head? with
        | some f => some f
        | none => (all_csv.filter (fun f => !usedCsv.contains f)).head?
      let usedJson2 := match json_filename with | some f => usedJson ++ [f] | none => usedJson
      let usedCsv2 := match csv_filename with | some f => usedCsv ++ [f] | none => usedCsv
      let http_req_name := ((httpReqs.filter (· = tg_name)).head?).getD tg_name
      let json_info := json_filename.bind (fun f => assocGet processed.json_contents f)
      let original_json_body := json_info.map (·.raw_content)
      let csv_config_data := csv_filename.bind (fun f =>
        (processed.csv_configs.filter (·.filename = f)).head?)
      let tgCtx :=
        match original_json_body, csv_config_data with
        | some body, some cfg =>
            if body ≠ "" then
              let csv_info : CsvInfo :=
                ⟨csv_filename.getD "", cfg.variable_names, (cfg.total_rows : Int),
                  some cfg.raw_content⟩
              let final := parameterize_json_body (some body) csv_info
              ThreadGroupContext.mk tg_name
                [⟨http_req_name, some final, json_filename, "POST", true⟩] [csv_info]
            else
              ThreadGroupContext.mk tg_name
                [⟨http_req_name, some body, json_filename, "POST", false⟩] []
        | _, _ =>
            ThreadGroupContext.mk tg_name
              [⟨http_req_name, original_json_body, json_filename, "POST", false⟩] []
      tgCtx :: prepareTgLoop processed httpReqs all_json all_csv rest usedJson2 usedCsv2

/-- `_prepare_generation_context` (lines 442-521): `.error` models the
`ValueError` raised when no thread-group name can be extracted. -/
def prepare_generation_context (requirements : String)
    (files_data : Option (List FileInfo)) : Except Unit GenerationContext :=
  let processed := safe_process_files files_data
  let ra := analyze_requirements_dynamically requirements
  if ra.thread_groups.isEmpty then .error ()
  else
    .ok { test_plan_name := ra.test_plan_name,
          thread_groups := prepareTgLoop processed ra.http_requests
            (sortStrings ra.json_files) (sortStrings ra.csv_files)
            (sortStrings ra.thread_groups) [] [],
          requirements := requirements,
          raw_processed_files := processed }

/-! ### `_parse_llm_content_response` (lines 413-440) and the retry loop
(`generate_jmx_with_retry`, lines 244-282) -/

/-- The lazy close of the markdown block: the first `}` position followed
by optional whitespace and three backticks. -/
def findLazyClose (fence : List Char) : Nat → Nat → List Char → Option Nat
  | 0, _, _ => none
  | _, _, [] => none
  | Nat.succ fuel, idx, c :: rest =>
      if c == '\x7d' && fence.isPrefixOf (dropLeadingWs rest) then some idx
      else findLazyClose fence fuel (idx + 1) rest

/-- ``re.search(r"```json\s*(\{.*?\})\s*```", response, re.DOTALL)``:
scan the fence occurrences in order; at each, skip whitespace, require a
brace, and close lazily. -/
def findMarkdownJson : Nat → List Char → Option String
  | 0, _ => none
  | _, [] => none
  | Nat.succ fuel, c :: rest =>
      let cs := c :: rest
      if ("```json".data).isPrefixOf cs then
        let afterFence := cs.drop 7
        let afterWs := dropLeadingWs afterFence
        match afterWs with
        | b :: body =>
            if b == '\x7b' then
              match findLazyClose ("```".data) (listLength body) 0 body with
              | some j => some (String.mk (afterWs.take (j + 2)))
              | none => findMarkdownJson fuel rest
            else findMarkdownJson fuel rest
        | [] => findMarkdownJson fuel rest
      else findMarkdownJson fuel rest

/-- `re.search(r"\{.*\}", response, re.DOTALL)`: from the first `{` to the
last `}`, when the former precedes the latter. -/
def braceSpan (s : String) : Option String :=
  let cs := s.data
  match findSubIdx ['\x7b'] (listLength cs) cs with
  | none => none
  | some i =>
      match findSubIdx ['\x7d'] (listLength cs) cs.reverse with
      | none => none
      | some jr =>
          let j := listLength cs - 1 - jr
          if i < j then some (String.mk ((cs.drop i).take (j - i + 1))) else none

/-- `_parse_llm_content_response` (lines 413-440): markdown block first,
then the greedy brace span; `json.loads` on the stripped capture, with
`ast.literal_eval` (the `astEval` parameter) as the repair fallback.
`.error` models the raised `ValueError`/`JSONDecodeError`. -/
def parse_llm_content_response (astEval : String → Option Json)
    (response : String) : Except Unit Json :=
  let json_str? :=
    match findMarkdownJson (listLength response.data) response.data with
    | some s => some s
    | none => braceSpan response
  match json_str? with
  | none => .error ()
  | some js =>
      let cleaned := pyStrip js
      match json_loads cleaned with
      | some j => .ok j
      | none =>
          match astEval cleaned with
          | some j => .ok j
          | none => .error ()

/-- `_build_content_generation_prompt` raises (a `json.JSONDecodeError`
caught by the retry loop) iff some request carries a non-blank body that is
not valid JSON (line 369); the prompt text itself is consumed only by the
external LLM, which the oracle models. -/
def build_prompt_raises (ctx : GenerationContext) : Bool :=
  ctx.thread_groups.any (fun tg => tg.http_requests.any (fun r =>
    match r.json_body with
    | some s => s ≠ "" && pyStrip s ≠ "" && (json_loads s).isNone
    | none => false))

/-- The retry loop of `generate_jmx_with_retry` (lines 257-282): per
attempt, build the prompt, consult the LLM (`oracle attempt`), parse,
assemble and validate; any failure (parse error, assembly exception,
invalid document) consumes the attempt; exhausted retries raise. -/
def generateAttempts (oracle : Nat → String) (astEval : String → Option Json)
    (etParse : String → Except String Unit) (H : String → Int)
    (ctx : GenerationContext) : Nat → Nat → Except Unit String
  | _, 0 => .error ()
  | attempt, Nat.succ remaining =>
      if build_prompt_raises ctx then
        generateAttempts oracle astEval etParse H ctx (attempt + 1) remaining
      else
        match parse_llm_content_response astEval (oracle attempt) with
        | .error _ => generateAttempts oracle astEval etParse H ctx (attempt + 1) remaining
        | .ok tpd =>
            match assemble_jmx_from_structured_data H tpd ctx with
            | .error _ => generateAttempts oracle astEval etParse H ctx (attempt + 1) remaining
            | .ok jmx =>
                if (validate_xml etParse jmx).1 then .ok jmx
                else generateAttempts oracle astEval etParse H ctx (attempt + 1) remaining

/-- `generate_jmx_with_retry` (lines 244-282), with the external
collaborators as parameters (see the header comment). -/
def generate_jmx_with_retry (oracle : Nat → String) (astEval : String → Option Json)
    (etParse : String → Except String Unit) (H : String → Int)
    (requirements : String) (files_data : Option (List FileInfo))
    (max_retries : Nat) : Except Unit String :=
  match prepare_generation_context requirements files_data with
  | .error _ => .error ()
  | .ok ctx => generateAttempts oracle astEval etParse H ctx 0 max_retries

/-! ## Theorems -/

mutual
/-- If nothing matches in a value, `recursive_replace` leaves it unchanged. -/
theorem recReplace_of_noMatch (vars : List String) (vmap : List (String × String)) :
    ∀ (j : Json), noMatch vars vmap j = true → recReplace vars vmap j = j
  | .obj kvs, h => by
      simp only [noMatch] at h
      simp only [recReplace, recReplacePairs_of_noMatch vars vmap kvs h]
  | .arr es, h => by
      simp only [noMatch] at h
      simp only [recReplace, recReplaceItems_of_noMatch vars vmap es h]
  | .null, _ => rfl
  | .bool _, _ => rfl
  | .num _, _ => rfl
  | .str _, _ => rfl

theorem recReplacePairs_of_noMatch (vars : List String) (vmap : List (String × String)) :
    ∀ (ps : List (String × Json)), noMatchPairs vars vmap ps = true →
      recReplacePairs vars vmap ps = ps
  | [], _ => rfl
  | (k, v) :: rest, h => by
      simp only [noMatchPairs, Bool.and_eq_true, Bool.not_eq_true', Option.isNone_iff_eq_none] at h
      obtain ⟨⟨⟨hk, hv⟩, hrec⟩, hrest⟩ := h
      simp only [recReplacePairs, hk, hv, Bool.false_eq_true, if_false,
        recReplace_of_noMatch vars vmap v hrec,
        recReplacePairs_of_noMatch vars vmap rest hrest]

theorem recReplaceItems_of_noMatch (vars : List String) (vmap : List (String × String)) :
    ∀ (es : List Json), noMatchItems vars vmap es = true →
      recReplaceItems vars vmap es = es
  | [], _ => rfl
  | e :: rest, h => by
      simp only [noMatchItems, Bool.and_eq_true] at h
      simp only [recReplaceItems, recReplace_of_noMatch vars vmap e h.1,
        recReplaceItems_of_noMatch vars vmap rest h.2]
end

/-- When the guards pass and the body parses, `_parameterize_json_body`
re-serializes the recursively substituted object with 4-space indentation. -/
theorem parameterize_json_body_parsed (body : String) (csv : CsvInfo) (j : Json)
    (h1 : body ≠ "") (h2 : csv.raw_content.getD "" ≠ "")
    (h3 : csv.variable_names ≠ []) (hj : json_loads body = some j) :
    parameterize_json_body (some body) csv =
      json_dumps 4 (recReplace csv.variable_names (csvValueMap csv) j) := by
  simp only [parameterize_json_body, Option.getD_some]
  rw [if_neg (by simp [h1, h2, h3]), hj]

/-- C1: `_parameterize_json_body` applies two-tier substitution depth-first
with key-match taking strict precedence over value-match at each key/value
pair: a key in `variable_names` has its value replaced by `${key}` with no
further recursion into that value; otherwise a value whose stringified form
is a key of the first-row value map is replaced by that placeholder;
otherwise the value is recursed into.  On the guard-passing path the result
is the serialized substituted object, and in particular the body
`{"id": "X", "status": "X"}` with `variableNames=["id"]` and first data row
`["X"]` yields `{"id": "${id}", "status": "${id}"}`. -/
theorem parameterize_two_tier_precedence :
    (∀ (vars : List String) (vmap : List (String × String)) (k : String)
        (v : Json) (rest : List (String × Json)),
        vars.contains k = true →
        recReplacePairs vars vmap ((k, v) :: rest) =
          (k, Json.str (placeholder k)) :: recReplacePairs vars vmap rest) ∧
    (∀ (vars : List String) (vmap : List (String × String)) (k : String)
        (v : Json) (rest : List (String × Json)) (ph : String),
        vars.contains k = false →
        strDictGet vmap (pyStr v) = some ph →
        recReplacePairs vars vmap ((k, v) :: rest) =
          (k, Json.str ph) :: recReplacePairs vars vmap rest) ∧
    (∀ (vars : List String) (vmap : List (String × String)) (k : String)
        (v : Json) (rest : List (String × Json)),
        vars.contains k = false →
        strDictGet vmap (pyStr v) = none →
        recReplacePairs vars vmap ((k, v) :: rest) =
          (k, recReplace vars vmap v) :: recReplacePairs vars vmap rest) ∧
    (∀ (body : String) (csv : CsvInfo) (j : Json),
        body ≠ "" → csv.raw_content.getD "" ≠ "" → csv.variable_names ≠ [] →
        json_loads body = some j →
        parameterize_json_body (some body) csv =
          json_dumps 4 (recReplace csv.variable_names (csvValueMap csv) j)) ∧
    (parameterize_json_body (some "\x7b\"id\": \"X\", \"status\": \"X\"\x7d")
        ⟨"data.csv", ["id"], 1, some "id\nX\n"⟩ =
      "\x7b\n    \"id\": \"$\x7bid\x7d\",\n    \"status\": \"$\x7bid\x7d\"\n\x7d") ∧
    (json_loads (parameterize_json_body (some "\x7b\"id\": \"X\", \"status\": \"X\"\x7d")
        ⟨"data.csv", ["id"], 1, some "id\nX\n"⟩) =
      some (Json.obj [("id", Json.str "$\x7bid\x7d"), ("status", Json.str "$\x7bid\x7d")])) := by
  refine ⟨?_, ?_, ?_, ?_, ?_, ?_⟩
  · intro vars vmap k v rest hk
    simp only [recReplacePairs, hk, if_true]
  · intro vars vmap k v rest ph hk hv
    simp only [recReplacePairs, hk, Bool.false_eq_true, if_false, hv]
  · intro vars vmap k v rest hk hv
    simp only [recReplacePairs, hk, Bool.false_eq_true, if_false, hv]
  · exact fun body csv j h1 h2 h3 hj => parameterize_json_body_parsed body csv j h1 h2 h3 hj
  · rfl
  · rfl

/-- C1 witness: the hypotheses of each conjunct hold at the concrete inputs
of the spec's own example. -/
theorem parameterize_two_tier_precedence_witness :
    (recReplacePairs ["id"] [("X", "$\x7bid\x7d")] [("id", Json.str "X")] =
      [("id", Json.str (placeholder "id"))]) ∧
    (recReplacePairs ["id"] [("X", "$\x7bid\x7d")] [("status", Json.str "X")] =
      [("status", Json.str "$\x7bid\x7d")]) ∧
    (recReplacePairs ["id"] [("X", "$\x7bid\x7d")] [("other", Json.str "Y")] =
      [("other", recReplace ["id"] [("X", "$\x7bid\x7d")] (Json.str "Y"))]) ∧
    (parameterize_json_body (some "\x7b\"id\": \"X\", \"status\": \"X\"\x7d")
        ⟨"data.csv", ["id"], 1, some "id\nX\n"⟩ =
      json_dumps 4 (recReplace ["id"] (csvValueMap ⟨"data.csv", ["id"], 1, some "id\nX\n"⟩)
        (Json.obj [("id", Json.str "X"), ("status", Json.str "X")]))) := by
  refine ⟨?_, ?_, ?_, ?_⟩
  · have h := parameterize_two_tier_precedence.1 ["id"] [("X", "$\x7bid\x7d")] "id"
      (Json.str "X") [] (by decide)
    simpa using h
  · have h := parameterize_two_tier_precedence.2.1 ["id"] [("X", "$\x7bid\x7d")] "status"
      (Json.str "X") [] "$\x7bid\x7d" (by decide) (by decide)
    simpa using h
  · have h := parameterize_two_tier_precedence.2.2.1 ["id"] [("X", "$\x7bid\x7d")] "other"
      (Json.str "Y") [] (by decide) (by decide)
    simpa using h
  · exact parameterize_two_tier_precedence.2.2.2.1
      "\x7b\"id\": \"X\", \"status\": \"X\"\x7d"
      ⟨"data.csv", ["id"], 1, some "id\nX\n"⟩
      (Json.obj [("id", Json.str "X"), ("status", Json.str "X")])
      (by decide) (by decide) (by decide) (by rfl)

/-- Two strings with different character prefixes of the same cut are
different. -/
theorem string_ne_of_take_ne (n : Nat) (a b : String)
    (h : a.data.take n ≠ b.data.take n) : a ≠ b :=
  fun he => h (by rw [he])

/-- The first 25 characters of a string extended on the right. -/
theorem take25_of_append (p t : String) (hp : 25 ≤ p.data.length) :
    (p ++ t).data.take 25 = p.data.take 25 := by
  rw [String.data_append]
  exact List.take_append_of_le_length hp

/-- The `vmsgHash` reasons share a fixed 25-character prefix. -/
theorem vmsgHash_take25 (o c : Nat) :
    (vmsgHash o c).data.take 25 =
      ("Validation failed: Mismatched <hashTree> tags (open: " : String).data.take 25 :=
  take25_of_append _ _ (by decide)

/-- The `vmsgParse` reasons share a fixed 25-character prefix. -/
theorem vmsgParse_take25 (e : String) :
    (vmsgParse e).data.take 25 =
      ("XML ParseError: The generated XML is not well-formed. Details: " : String).data.take 25 :=
  take25_of_append _ _ (by decide)

/-- C3: `validate_xml` performs its checks in the fixed source order,
short-circuiting on the first failure — (a) non-blank content, (b) the
declaration prefix, (c) the root closing tag suffix, (d) equal
`<hashTree>`/`</hashTree>` counts, (e) well-formedness via `ET.fromstring`
— each failure returning its own distinct human-readable reason string
(pairwise distinct across all parameter values), and the validator only
returns a `(bool, reason)` pair: it never modifies or repairs the
document. -/
theorem validate_xml_check_order :
    (∀ (E : String → Except String Unit) (s : String),
        pyStrip s = "" → validate_xml E s = (false, vmsgEmpty)) ∧
    (∀ (E : String → Except String Unit) (s : String),
        pyStrip s ≠ "" → pyStartsWith (pyStrip s) "<?xml" = false →
        validate_xml E s = (false, vmsgDecl)) ∧
    (∀ (E : String → Except String Unit) (s : String),
        pyStrip s ≠ "" → pyStartsWith (pyStrip s) "<?xml" = true →
        pyEndsWith (pyStrip s) "</jmeterTestPlan>" = false →
        validate_xml E s = (false, vmsgEnd)) ∧
    (∀ (E : String → Except String Unit) (s : String),
        pyStrip s ≠ "" → pyStartsWith (pyStrip s) "<?xml" = true →
        pyEndsWith (pyStrip s) "</jmeterTestPlan>" = true →
        pyCount (pyStrip s) "<hashTree>" ≠ pyCount (pyStrip s) "</hashTree>" →
        validate_xml E s =
          (false, vmsgHash (pyCount (pyStrip s) "<hashTree>")
            (pyCount (pyStrip s) "</hashTree>"))) ∧
    (∀ (E : String → Except String Unit) (s : String) (e : String),
        pyStrip s ≠ "" → pyStartsWith (pyStrip s) "<?xml" = true →
        pyEndsWith (pyStrip s) "</jmeterTestPlan>" = true →
        pyCount (pyStrip s) "<hashTree>" = pyCount (pyStrip s) "</hashTree>" →
        E (pyStrip s) = .error e →
        validate_xml E s = (false, vmsgParse e)) ∧
    (∀ (E : String → Except String Unit) (s : String),
        pyStrip s ≠ "" → pyStartsWith (pyStrip s) "<?xml" = true →
        pyEndsWith (pyStrip s) "</jmeterTestPlan>" = true →
        pyCount (pyStrip s) "<hashTree>" = pyCount (pyStrip s) "</hashTree>" →
        E (pyStrip s) = .ok () →
        validate_xml E s = (true, vmsgOk)) ∧
    (∀ (o c : Nat) (e : String),
        vmsgEmpty ≠ vmsgDecl ∧ vmsgEmpty ≠ vmsgEnd ∧ vmsgEmpty ≠ vmsgHash o c ∧
        vmsgEmpty ≠ vmsgParse e ∧ vmsgDecl ≠ vmsgEnd ∧ vmsgDecl ≠ vmsgHash o c ∧
        vmsgDecl ≠ vmsgParse e ∧ vmsgEnd ≠ vmsgHash o c ∧ vmsgEnd ≠ vmsgParse e ∧
        vmsgHash o c ≠ vmsgParse e ∧ vmsgEmpty ≠ vmsgOk ∧ vmsgDecl ≠ vmsgOk ∧
        vmsgEnd ≠ vmsgOk ∧ vmsgHash o c ≠ vmsgOk ∧ vmsgParse e ≠ vmsgOk) := by
  refine ⟨?_, ?_, ?_, ?_, ?_, ?_, ?_⟩
  · intro E s h
    simp only [validate_xml, h, if_true]
  · intro E s h hb
    simp only [validate_xml, h, if_false, hb, Bool.false_eq_true, not_false_iff, if_true]
  · intro E s h hb hc
    simp only [validate_xml, h, if_false, hb, hc, Bool.false_eq_true, Bool.true_eq_false,
      not_true, not_false_iff, if_true, if_false]
  · intro E s h hb hc hd
    simp only [validate_xml, h, if_false, hb, hc, Bool.true_eq_false, not_true, if_false,
      hd, if_true]
    rw [if_pos hd]
  · intro E s e h hb hc hd he
    simp only [validate_xml, h, if_false, hb, hc, Bool.true_eq_false, not_true, if_false,
      hd, if_true, he]
    simp [hd]
  · intro E s h hb hc hd he
    simp only [validate_xml, h, if_false, hb, hc, Bool.true_eq_false, not_true, if_false,
      hd, if_true, he]
    simp [hd]
  · intro o c e
    refine ⟨by decide, by decide, ?_, ?_, by decide, ?_, ?_, ?_, ?_, ?_, by decide,
      by decide, by decide, ?_, ?_⟩
    · exact string_ne_of_take_ne 25 _ _ (by rw [vmsgHash_take25]; decide)
    · exact string_ne_of_take_ne 25 _ _ (by rw [vmsgParse_take25]; decide)
    · exact string_ne_of_take_ne 25 _ _ (by rw [vmsgHash_take25]; decide)
    · exact string_ne_of_take_ne 25 _ _ (by rw [vmsgParse_take25]; decide)
    · exact string_ne_of_take_ne 25 _ _ (by rw [vmsgHash_take25]; decide)
    · exact string_ne_of_take_ne 25 _ _ (by rw [vmsgParse_take25]; decide)
    · exact string_ne_of_take_ne 25 _ _ (by rw [vmsgHash_take25, vmsgParse_take25]; decide)
    · exact string_ne_of_take_ne 25 _ _ (by rw [vmsgHash_take25]; decide)
    · exact string_ne_of_take_ne 25 _ _ (by rw [vmsgParse_take25]; decide)

/-- C3 witness: every checked branch is reachable at a concrete input. -/
theorem validate_xml_check_order_witness :
    (validate_xml (fun _ => .ok ()) "  " = (false, vmsgEmpty)) ∧
    (validate_xml (fun _ => .ok ()) "nope" = (false, vmsgDecl)) ∧
    (validate_xml (fun _ => .ok ()) "<?xml version=\"1.0\"?><a/>" = (false, vmsgEnd)) ∧
    (validate_xml (fun _ => .ok ())
        "<?xml version=\"1.0\"?><jmeterTestPlan><hashTree></jmeterTestPlan>" =
      (false, vmsgHash 1 0)) ∧
    (validate_xml (fun _ => .error "boom, line 1, column 2")
        "<?xml version=\"1.0\"?><jmeterTestPlan></jmeterTestPlan>" =
      (false, vmsgParse "boom, line 1, column 2")) ∧
    (validate_xml (fun _ => .ok ())
        "<?xml version=\"1.0\"?><jmeterTestPlan></jmeterTestPlan>" = (true, vmsgOk)) ∧
    (vmsgHash 1 0 ≠ vmsgParse "boom, line 1, column 2") := by
  refine ⟨?_, ?_, ?_, ?_, ?_, ?_, ?_⟩
  · exact validate_xml_check_order.1 (fun _ => .ok ()) "  " (by decide)
  · exact validate_xml_check_order.2.1 (fun _ => .ok ()) "nope" (by decide) (by decide)
  · exact validate_xml_check_order.2.2.1 (fun _ => .ok ())
      "<?xml version=\"1.0\"?><a/>" (by decide) (by decide) (by decide)
  · exact validate_xml_check_order.2.2.2.1 (fun _ => .ok ())
      "<?xml version=\"1.0\"?><jmeterTestPlan><hashTree></jmeterTestPlan>"
      (by decide) (by decide) (by decide) (by decide)
  · exact validate_xml_check_order.2.2.2.2.1 (fun _ => .error "boom, line 1, column 2")
      "<?xml version=\"1.0\"?><jmeterTestPlan></jmeterTestPlan>"
      "boom, line 1, column 2" (by decide) (by decide) (by decide) (by decide) (by rfl)
  · exact validate_xml_check_order.2.2.2.2.2.1 (fun _ => .ok ())
      "<?xml version=\"1.0\"?><jmeterTestPlan></jmeterTestPlan>"
      (by decide) (by decide) (by decide) (by decide) (by rfl)
  · exact (validate_xml_check_order.2.2.2.2.2.2 1 0 "boom, line 1, column 2").2.2.2.2.2.2.2.2.2.1

/-- C5 counterexample: the file content `",,"` is a present header line
(`csv.reader` yields one row of three empty cells), the processor succeeds
with `total_rows = 0` and `sample_data = []`, but `headers` is empty even
though a header line was present — the parenthetical "non-empty when a
header line was present" fails when every header cell is blank. -/
theorem safe_process_single_csv_blank_headers :
    safe_process_single_csv { content := some (Json.str ",,") } =
      some ⟨[], [], 0, "unknown.csv", ",,"⟩ ∧
    csvParse ",," = [["", "", ""]] := by
  exact ⟨rfl, rfl⟩

/-- C5 (amended): a tabular file with a header line and zero data rows is
processed successfully into `total_rows = 0`, `sample_data = []` and
`headers` equal to the header cells trimmed with empty entries dropped —
non-empty exactly when the header line has at least one non-blank cell. -/
theorem safe_process_single_csv_zero_rows :
    (∀ (fi : FileInfo) (s : String) (h : List String),
        csvContentStr fi = s → pyStrip s ≠ "" → csvParse s = [h] →
        safe_process_single_csv fi =
          some ⟨cleanedHeaders h, [], 0, fileInfoName fi "unknown.csv", s⟩) ∧
    (∀ (hs : List String), cleanedHeaders hs = [] ↔ ∀ c ∈ hs, pyStrip c = "") := by
  constructor
  · intro fi s h hcs hstrip hparse
    have hs0 : s ≠ "" := by
      intro he
      exact hstrip (by rw [he]; rfl)
    simp only [safe_process_single_csv, hcs, hparse]
    rw [if_neg (by simp [hs0, hstrip])]
    rfl
  · intro hs
    constructor
    · intro he c hc
      by_cases hc0 : c = ""
      · rw [hc0]; rfl
      · by_contra hstrip
        have hfil : c ∈ hs.filter (fun x => x ≠ "" && pyStrip x ≠ "") :=
          List.mem_filter.2 ⟨hc, by simp [hc0, hstrip]⟩
        have hnil : hs.filter (fun x => x ≠ "" && pyStrip x ≠ "") = [] := by
          have := congrArg List.length he
          simpa [cleanedHeaders, List.length_eq_zero] using this
        rw [hnil] at hfil
        exact absurd hfil (List.not_mem_nil c)
    · intro hall
      have hnil : hs.filter (fun x => x ≠ "" && pyStrip x ≠ "") = [] := by
        rw [List.filter_eq_nil_iff]
        intro c hc
        simp [hall c hc]
      simp only [cleanedHeaders, hnil, List.map_nil]

/-- C5 witness: a one-line file `"a,b\n"` goes through the amended theorem
with non-blank headers, and the blank-headers equivalence is exercised. -/
theorem safe_process_single_csv_zero_rows_witness :
    (safe_process_single_csv { content := some (Json.str "a,b\n") } =
      some ⟨cleanedHeaders ["a", "b"], [], 0,
        fileInfoName { content := some (Json.str "a,b\n") } "unknown.csv", "a,b\n"⟩) ∧
    (cleanedHeaders ["a", "b"] = [] ↔ ∀ c ∈ ["a", "b"], pyStrip c = "") := by
  refine ⟨?_, ?_⟩
  · exact safe_process_single_csv_zero_rows.1
      { content := some (Json.str "a,b\n") } "a,b\n" ["a", "b"]
      (by rfl) (by decide) (by rfl)
  · exact safe_process_single_csv_zero_rows.2 ["a", "b"]

/-- A string is an infix of itself. -/
theorem strInfix_refl (x : String) : x.data <:+: x.data := List.infix_refl x.data

/-- Infixes survive extension on the left. -/
theorem strInfix_left (a : String) {x s : String} (h : x.data <:+: s.data) :
    x.data <:+: (a ++ s).data := by
  obtain ⟨l, r, hlr⟩ := h
  exact ⟨a.data ++ l, r, by rw [String.data_append, ← hlr]; simp [List.append_assoc]⟩

/-- Infixes survive extension on the right. -/
theorem strInfix_right {x s : String} (b : String) (h : x.data <:+: s.data) :
    x.data <:+: (s ++ b).data := by
  obtain ⟨l, r, hlr⟩ := h
  exact ⟨l, r ++ b.data, by rw [String.data_append, ← hlr]; simp [List.append_assoc]⟩

/-- A character-level infix is a string decomposition. -/
theorem strInfix_decomp {x s : String} (h : x.data <:+: s.data) :
    ∃ pre post, s = pre ++ x ++ post := by
  obtain ⟨l, r, hlr⟩ := h
  refine ⟨String.mk l, String.mk r, ?_⟩
  apply String.ext
  rw [String.data_append, String.data_append, ← hlr]

/-- Every member of a joined list is an infix of the join. -/
theorem mem_pyJoin_strInfix (sep : String) :
    ∀ (l : List String) (x : String), x ∈ l → x.data <:+: (pyJoin sep l).data
  | [], x, h => absurd h (List.not_mem_nil x)
  | [p], x, h => by
      have hx : x = p := List.mem_singleton.1 h
      subst hx
      exact strInfix_refl x
  | p :: q :: rest, x, h => by
      rcases List.mem_cons.1 h with h1 | h2
      · subst h1
        exact strInfix_right _ (strInfix_right _ (strInfix_refl x))
      · exact strInfix_left (p ++ sep) (mem_pyJoin_strInfix sep (q :: rest) x h2)

/-- The `content` argument is an infix of the formatted thread-group
template. -/
theorem content_strInfix_thread_group (n o l nt rt sch d content : String) :
    content.data <:+: (tmpl_thread_group_modified n o l nt rt sch d content).data := by
  unfold tmpl_thread_group_modified
  exact strInfix_right _ (strInfix_left _ (strInfix_refl content))

/-- The `content` argument is an infix of the formatted test-plan
structure. -/
theorem content_strInfix_test_plan (tn cm td content : String) :
    content.data <:+: (tmpl_test_plan_structure tn cm td content).data := by
  unfold tmpl_test_plan_structure
  exact strInfix_right _ (strInfix_left _ (strInfix_refl content))

/-- Inversion of a successful `Except` bind. -/
theorem bind_ok {α β : Type} {e : Except Unit α} {f : α → Except Unit β} {b : β}
    (h : (e >>= f) = .ok b) : ∃ a, e = .ok a ∧ f a = .ok b := by
  cases e with
  | error u => exact absurd h (by simp [Bind.bind, Except.bind])
  | ok a => exact ⟨a, rfl, by simpa [Bind.bind, Except.bind] using h⟩

/-- Inversion of a successful `Except` `pure`. -/
theorem pure_ok {α : Type} {a b : α}
    (h : (pure a : Except Unit α) = .ok b) : a = b := by
  simpa [pure, Except.pure] using h

/-- A successful thread-group assembly contains every forced CSV block of
its context entry. -/
theorem assembleThreadGroup_csv_contained {H : String → Int}
    {all_llm_tgs : List (Json × Json)} {tg : ThreadGroupContext} {x : String}
    (h : assembleThreadGroup H all_llm_tgs tg = .ok x) {c : CsvInfo}
    (hc : c ∈ tg.csv_configs) : (assembleCsvConfig c).data <:+: x.data := by
  unfold assembleThreadGroup at h
  have hmemCsv : assembleCsvConfig c ∈ tg.csv_configs.map assembleCsvConfig :=
    List.mem_map_of_mem assembleCsvConfig hc
  by_cases hreq : tg.http_requests.isEmpty
  · simp only [hreq, if_true] at h
    obtain ⟨children, hch, h⟩ := bind_ok h
    obtain ⟨v1, _, h⟩ := bind_ok h
    obtain ⟨v2, _, h⟩ := bind_ok h
    obtain ⟨v3, _, h⟩ := bind_ok h
    obtain ⟨v4, _, h⟩ := bind_ok h
    obtain ⟨v5, _, h⟩ := bind_ok h
    obtain ⟨v6, _, h⟩ := bind_ok h
    rw [← pure_ok h]
    have hmem : assembleCsvConfig c ∈ children := by
      rw [← pure_ok hch]
      exact hmemCsv
    exact (mem_pyJoin_strInfix _ _ _ hmem).trans
      (content_strInfix_thread_group _ _ _ _ _ _ _ _)
  · rw [Bool.not_eq_true] at hreq
    simp only [hreq, Bool.false_eq_true, if_false] at h
    obtain ⟨r1, _, h⟩ := bind_ok h
    obtain ⟨r2, _, h⟩ := bind_ok h
    obtain ⟨r3, _, h⟩ := bind_ok h
    obtain ⟨r4, _, h⟩ := bind_ok h
    obtain ⟨children, hch, h⟩ := bind_ok h
    obtain ⟨v1, _, h⟩ := bind_ok h
    obtain ⟨v2, _, h⟩ := bind_ok h
    obtain ⟨v3, _, h⟩ := bind_ok h
    obtain ⟨v4, _, h⟩ := bind_ok h
    obtain ⟨v5, _, h⟩ := bind_ok h
    obtain ⟨v6, _, h⟩ := bind_ok h
    rw [← pure_ok h]
    have hmem : assembleCsvConfig c ∈ children := by
      rw [← pure_ok hch]
      exact List.mem_append_left _ hmemCsv
    exact (mem_pyJoin_strInfix _ _ _ hmem).trans
      (content_strInfix_thread_group _ _ _ _ _ _ _ _)

/-- A successful thread-group list assembly has a successful entry for each
context thread group. -/
theorem assembleThreadGroupList_ok_mem {H : String → Int}
    {all_llm_tgs : List (Json × Json)} :
    ∀ {tgs : List ThreadGroupContext} {res : List String} {tg : ThreadGroupContext},
      assembleThreadGroupList H all_llm_tgs tgs = .ok res → tg ∈ tgs →
      ∃ x, x ∈ res ∧ assembleThreadGroup H all_llm_tgs tg = .ok x
  | [], _, tg, _, hmem => absurd hmem (List.not_mem_nil tg)
  | t :: ts, res, tg, h, hmem => by
      unfold assembleThreadGroupList at h
      obtain ⟨x0, hx0, h⟩ := bind_ok h
      obtain ⟨tail, htail, h⟩ := bind_ok h
      have hres := pure_ok h
      rcases List.mem_cons.1 hmem with h1 | h2
      · subst h1
        exact ⟨x0, by rw [← hres]; exact List.mem_cons_self x0 tail, hx0⟩
      · obtain ⟨x, hxmem, hx⟩ := assembleThreadGroupList_ok_mem htail h2
        exact ⟨x, by rw [← hres]; exact List.mem_cons_of_mem x0 hxmem, hx⟩

/-- Every forced CSV block of the context is an infix of a successfully
assembled document. -/
theorem assemble_jmx_csv_contained {H : String → Int} {tpd : Json}
    {ctx : GenerationContext} {s : String}
    (h : assemble_jmx_from_structured_data H tpd ctx = .ok s)
    {tg : ThreadGroupContext} (htg : tg ∈ ctx.thread_groups)
    {c : CsvInfo} (hc : c ∈ tg.csv_configs) :
    (assembleCsvConfig c).data <:+: s.data := by
  unfold assemble_jmx_from_structured_data at h
  obtain ⟨hm, _, h⟩ := bind_ok h
  obtain ⟨hd, _, h⟩ := bind_ok h
  obtain ⟨rv, _, h⟩ := bind_ok h
  obtain ⟨tgsV, _, h⟩ := bind_ok h
  obtain ⟨tgElems, _, h⟩ := bind_ok h
  obtain ⟨allTgs, _, h⟩ := bind_ok h
  obtain ⟨tgXmls, htgx, h⟩ := bind_ok h
  obtain ⟨tearV, _, h⟩ := bind_ok h
  have hx := pure_ok h
  obtain ⟨xg, hxg_mem, hxg⟩ := assembleThreadGroupList_ok_mem htgx htg
  have h1 : (assembleCsvConfig c).data <:+: xg.data :=
    assembleThreadGroup_csv_contained hxg hc
  have h2 : xg ∈ hm ++ hd ++ rv ++ tgXmls ++ [tmpl_result_collector "View Results Tree"] :=
    List.mem_append_left _ (List.mem_append_right _ hxg_mem)
  have h3 := (h1.trans (mem_pyJoin_strInfix "\n          " _ xg h2)).trans
    (content_strInfix_test_plan (xmlEscapeStr ctx.test_plan_name)
      "Generated by a universal JMXGeneratorService."
      (pyLower (pyStr tearV)) _)
  rw [← hx]
  exact strInfix_left (tmpl_xml_header ++ "\n") h3

/-- C7: every CSV data-set element emitted by the assembler has its file
path rewritten to the fixed relative test-data directory
(`..\TestData\<filename>`), with `ignoreFirstLine` emitted as the literal
`"true"` — unconditionally, so in particular whenever the data set is used
for parameterization, overriding any input-supplied value — and each such
block appears verbatim inside every successfully assembled document. -/
theorem assemble_csv_forced_settings :
    (∀ (c : CsvInfo),
        assembleCsvConfig c =
          tmpl_csv_data_set_config "," ("..\\TestData\\" ++ c.filename) "true"
            "false" "true" "shareMode.all" "false" (pyJoin "," c.variable_names)) ∧
    (∀ (H : String → Int) (tpd : Json) (ctx : GenerationContext) (s : String)
        (tg : ThreadGroupContext) (c : CsvInfo),
        assemble_jmx_from_structured_data H tpd ctx = .ok s →
        tg ∈ ctx.thread_groups → c ∈ tg.csv_configs →
        ∃ pre post, s = pre ++ assembleCsvConfig c ++ post) :=
  ⟨fun _ => rfl,
   fun _ _ _ _ _ _ h htg hc => strInfix_decomp (assemble_jmx_csv_contained h htg hc)⟩

set_option maxRecDepth 100000 in
/-- C7 witness: a concrete context with one CSV data set assembles
successfully; the document decomposes around the forced CSV block, whose
rendered text carries the `..\TestData\` path and `ignoreFirstLine = true`
exactly once. -/
theorem assemble_csv_forced_settings_witness :
    (∃ pre post,
        (assemble_jmx_from_structured_data (fun _ => 0) (Json.obj [])
            { test_plan_name := "TP",
              thread_groups := [{ name := "TG1",
                                  csv_configs := [⟨"data.csv", ["uid"], 1, some "uid\nabc\n"⟩] }],
              requirements := "r", raw_processed_files := {} }).toOption.getD "" =
          pre ++ assembleCsvConfig ⟨"data.csv", ["uid"], 1, some "uid\nabc\n"⟩ ++ post) ∧
    pyCount (assembleCsvConfig ⟨"data.csv", ["uid"], 1, some "uid\nabc\n"⟩)
      "<stringProp name=\"filename\">..\\TestData\\data.csv</stringProp>" = 1 ∧
    pyCount (assembleCsvConfig ⟨"data.csv", ["uid"], 1, some "uid\nabc\n"⟩)
      "<boolProp name=\"ignoreFirstLine\">true</boolProp>" = 1 := by
  refine ⟨?_, by decide, by decide⟩
  exact assemble_csv_forced_settings.2 (fun _ => 0) (Json.obj [])
    { test_plan_name := "TP",
      thread_groups := [{ name := "TG1",
                          csv_configs := [⟨"data.csv", ["uid"], 1, some "uid\nabc\n"⟩] }],
      requirements := "r", raw_processed_files := {} } _ _ _ (by rfl)
    (List.mem_singleton.2 rfl) (List.mem_singleton.2 rfl)

set_option maxRecDepth 100000 in
/-- Decidable equality of compiler results (`Except Unit String`). -/
instance : DecidableEq (Except Unit String) := fun x y =>
  match x, y with
  | .error a, .error b => isTrue (by cases a; cases b; rfl)
  | .ok a, .ok b =>
      match decEq a b with
      | isTrue h => isTrue (by rw [h])
      | isFalse h => isFalse (by intro hc; cases hc; exact h rfl)
  | .error _, .ok _ => isFalse (by intro hc; cases hc)
  | .ok _, .error _ => isFalse (by intro hc; cases hc)

/-- A suffix of the right operand is a suffix of an append. -/
theorem pyEndsWith_append (a t tag : String) (h : pyEndsWith t tag = true) :
    pyEndsWith (a ++ t) tag = true := by
  unfold pyEndsWith at *
  rw [List.isSuffixOf_iff_suffix] at *
  rw [String.data_append]
  exact h.trans (List.suffix_append a.data t.data)

/-- Every formatted test-plan structure ends with the root closing tag. -/
theorem tmpl_test_plan_endsWith (tn cm td content : String) :
    pyEndsWith (tmpl_test_plan_structure tn cm td content) "</jmeterTestPlan>" = true := by
  unfold tmpl_test_plan_structure
  apply pyEndsWith_append
  unfold pyEndsWith
  decide

/-- Every successfully assembled document ends with the root closing tag
(the template's closing text is the document's tail). -/
theorem assemble_jmx_endsWith {H : String → Int} {tpd : Json}
    {ctx : GenerationContext} {s : String}
    (h : assemble_jmx_from_structured_data H tpd ctx = .ok s) :
    pyEndsWith s "</jmeterTestPlan>" = true := by
  unfold assemble_jmx_from_structured_data at h
  obtain ⟨hm, _, h⟩ := bind_ok h
  obtain ⟨hd, _, h⟩ := bind_ok h
  obtain ⟨rv, _, h⟩ := bind_ok h
  obtain ⟨tgsV, _, h⟩ := bind_ok h
  obtain ⟨tgElems, _, h⟩ := bind_ok h
  obtain ⟨allTgs, _, h⟩ := bind_ok h
  obtain ⟨tgXmls, _, h⟩ := bind_ok h
  obtain ⟨tearV, _, h⟩ := bind_ok h
  rw [← pure_ok h]
  exact pyEndsWith_append _ _ _ (tmpl_test_plan_endsWith _ _ _ _)

/-- A successful retry loop only returns a document that was assembled and
then passed `validate_xml`; such a document ends with the closing tag. -/
theorem generateAttempts_ok_endsWith {oracle : Nat → String}
    {astEval : String → Option Json} {etParse : String → Except String Unit}
    {H : String → Int} {ctx : GenerationContext} :
    ∀ {rem att : Nat} {s : String},
      generateAttempts oracle astEval etParse H ctx att rem = .ok s →
      pyEndsWith s "</jmeterTestPlan>" = true := by
  intro rem
  induction rem with
  | zero => intro att s h; exact absurd h (by simp [generateAttempts])
  | succ rem ih =>
      intro att s h
      unfold generateAttempts at h
      by_cases hp : build_prompt_raises ctx
      · rw [if_pos hp] at h
        exact ih h
      · rw [if_neg hp] at h
        split at h
        · exact ih h
        · split at h
          · exact ih h
          · split at h
            · rename_i tpd hparse jmx hasm hv
              cases h
              exact assemble_jmx_endsWith hasm
            · exact ih h

/-- C4 counterexample: a document that ends with the closing tag plus a
trailing newline does not literally end with `</jmeterTestPlan>`, yet
`validate_xml` accepts it — the validator strips surrounding whitespace
before its suffix check, so "does not end with the root closing tag" does
not imply failure. -/
theorem validate_xml_trailing_whitespace_accepted :
    (validate_xml (fun _ => .ok ())
        "<?xml version=\"1.0\"?><jmeterTestPlan></jmeterTestPlan>\n" = (true, vmsgOk)) ∧
    (pyEndsWith "<?xml version=\"1.0\"?><jmeterTestPlan></jmeterTestPlan>\n"
        "</jmeterTestPlan>" = false) := by
  exact ⟨by decide, by decide⟩

/-- C4 (amended): `validate_xml` fails every string whose
whitespace-stripped form does not end with `</jmeterTestPlan>`, and
`generate_jmx_with_retry` never returns a document to the caller as a
success unless it passed validation — indeed every successfully returned
document literally ends with the closing tag (on exhausted retries the
function raises instead). -/
theorem validator_gate :
    (∀ (E : String → Except String Unit) (s : String),
        pyEndsWith (pyStrip s) "</jmeterTestPlan>" = false →
        (validate_xml E s).1 = false) ∧
    (∀ (oracle : Nat → String) (astEval : String → Option Json)
        (etParse : String → Except String Unit) (H : String → Int)
        (req : String) (files : Option (List FileInfo)) (m : Nat) (s : String),
        generate_jmx_with_retry oracle astEval etParse H req files m = .ok s →
        pyEndsWith s "</jmeterTestPlan>" = true) := by
  constructor
  · intro E s h
    unfold validate_xml
    by_cases h0 : pyStrip s = ""
    · simp [h0]
    · by_cases hb : pyStartsWith (pyStrip s) "<?xml"
      · simp [h0, hb, h]
      · simp [h0, hb]
  · intro oracle astEval etParse H req files m s h
    unfold generate_jmx_with_retry at h
    cases hp : prepare_generation_context req files with
    | error e => rw [hp] at h; exact absurd h (by simp)
    | ok ctx =>
        rw [hp] at h
        exact generateAttempts_ok_endsWith h

set_option maxRecDepth 1000000 in
/-- C4 witness: the validator branch at a concrete non-conforming string,
and the generator branch at a concrete successful run. -/
theorem validator_gate_witness :
    ((validate_xml (fun _ => .ok ()) "x").1 = false) ∧
    (pyEndsWith ((generate_jmx_with_retry
        (fun _ => "\x7b\"tear_down_on_shutdown\": \"true\"\x7d") (fun _ => none)
        (fun _ => .ok ()) (fun _ => 0) "thread group AB-CD" none 3).toOption.getD "")
      "</jmeterTestPlan>" = true) := by
  constructor
  · exact validator_gate.1 (fun _ => .ok ()) "x" (by decide)
  · exact validator_gate.2 (fun _ => "\x7b\"tear_down_on_shutdown\": \"true\"\x7d")
      (fun _ => none) (fun _ => .ok ()) (fun _ => 0) "thread group AB-CD" none 3 _
      (by rfl)

set_option maxRecDepth 1000000 in
/-- C2 counterexample: with the same `(requirements, files)` pair, two runs
whose external LLM responses differ produce different documents, both
accepted as successes — `generate_jmx_with_retry` consults
`llm_service.generate_text` (line 262) and is therefore not a function of
`(template, files)` alone. -/
theorem generate_depends_on_llm_response :
    ((generate_jmx_with_retry (fun _ => "\x7b\"tear_down_on_shutdown\": \"true\"\x7d")
        (fun _ => none) (fun _ => .ok ()) (fun _ => 0)
        "thread group AB-CD" none 3).isOk = true) ∧
    ((generate_jmx_with_retry (fun _ => "\x7b\"tear_down_on_shutdown\": \"false\"\x7d")
        (fun _ => none) (fun _ => .ok ()) (fun _ => 0)
        "thread group AB-CD" none 3).isOk = true) ∧
    (generate_jmx_with_retry (fun _ => "\x7b\"tear_down_on_shutdown\": \"true\"\x7d")
        (fun _ => none) (fun _ => .ok ()) (fun _ => 0)
        "thread group AB-CD" none 3 ≠
      generate_jmx_with_retry (fun _ => "\x7b\"tear_down_on_shutdown\": \"false\"\x7d")
        (fun _ => none) (fun _ => .ok ()) (fun _ => 0)
        "thread group AB-CD" none 3) := by
  refine ⟨by decide, by decide, by decide⟩

/-- The retry loop reads the oracle only at the attempts it runs. -/
theorem generateAttempts_oracle_congr {astEval : String → Option Json}
    {etParse : String → Except String Unit} {H : String → Int}
    {ctx : GenerationContext} :
    ∀ (rem att : Nat) (o1 o2 : Nat → String),
      (∀ n, att ≤ n → n < att + rem → o1 n = o2 n) →
      generateAttempts o1 astEval etParse H ctx att rem =
        generateAttempts o2 astEval etParse H ctx att rem := by
  intro rem
  induction rem with
  | zero => intro att o1 o2 _; rfl
  | succ rem ih =>
      intro att o1 o2 ho
      have hnext : ∀ n, att + 1 ≤ n → n < att + 1 + rem → o1 n = o2 n :=
        fun n h1 h2 => ho n (by omega) (by omega)
      unfold generateAttempts
      by_cases hp : build_prompt_raises ctx
      · rw [if_pos hp, if_pos hp]
        exact ih (att + 1) o1 o2 hnext
      · rw [if_neg hp, if_neg hp, ho att (Nat.le_refl att) (by omega)]
        generalize parse_llm_content_response astEval (o2 att) = pr
        cases pr with
        | error e => dsimp only; exact ih (att + 1) o1 o2 hnext
        | ok tpd =>
            dsimp only
            generalize assemble_jmx_from_structured_data H tpd ctx = ar
            cases ar with
            | error e => dsimp only; exact ih (att + 1) o1 o2 hnext
            | ok jmx =>
                by_cases hv : (validate_xml etParse jmx).1
                · simp only [hv, if_true]
                · simp only [hv, Bool.false_eq_true, if_false]
                  exact ih (att + 1) o1 o2 hnext

/-- C2 (amended): the compiled document is a deterministic function of the
`(requirements, files)` pair TOGETHER with the external inputs — the LLM
response of each attempt (and the stdlib collaborators): two runs on equal
inputs whose LLM responses agree on the attempts that can run yield
identical results, byte for byte. -/
theorem generate_deterministic_given_responses :
    ∀ (o1 o2 : Nat → String) (astEval : String → Option Json)
      (etParse : String → Except String Unit) (H : String → Int)
      (req : String) (files : Option (List FileInfo)) (m : Nat),
      (∀ n, n < m → o1 n = o2 n) →
      generate_jmx_with_retry o1 astEval etParse H req files m =
        generate_jmx_with_retry o2 astEval etParse H req files m := by
  intro o1 o2 astEval etParse H req files m ho
  unfold generate_jmx_with_retry
  cases prepare_generation_context req files with
  | error e => rfl
  | ok ctx =>
      exact generateAttempts_oracle_congr m 0 o1 o2 (fun n _ h2 => ho n (by omega))

/-- C2 witness: the determinism theorem at a concrete oracle. -/
theorem generate_deterministic_witness :
    generate_jmx_with_retry (fun n => toString n) (fun _ => none)
        (fun _ => .ok ()) (fun _ => 0) "thread group AB-CD" none 3 =
      generate_jmx_with_retry (fun n => toString n) (fun _ => none)
        (fun _ => .ok ()) (fun _ => 0) "thread group AB-CD" none 3 :=
  generate_deterministic_given_responses (fun n => toString n) (fun n => toString n)
    (fun _ => none) (fun _ => .ok ()) (fun _ => 0) "thread group AB-CD" none 3
    (fun _ _ => rfl)

set_option maxRecDepth 1000000 in
/-- C9 counterexample: with no server address supplied anywhere — the
requirements name no domain, the LLM data has no `http_defaults` — the
compiler succeeds and returns a document containing no domain element at
all; no `MissingServerAddressError` is raised (no such error exists in the
code), contradicting "fails with a fatal MissingServerAddressError raised
before assembly begins". -/
theorem no_missing_server_address_error :
    ((generate_jmx_with_retry (fun _ => "\x7b\"tear_down_on_shutdown\": \"true\"\x7d")
        (fun _ => none) (fun _ => .ok ()) (fun _ => 0)
        "thread group AB-CD" none 3).isOk = true) ∧
    (pyCount ((generate_jmx_with_retry
        (fun _ => "\x7b\"tear_down_on_shutdown\": \"true\"\x7d") (fun _ => none)
        (fun _ => .ok ()) (fun _ => 0)
        "thread group AB-CD" none 3).toOption.getD "") "HTTPSampler.domain" = 0) := by
  refine ⟨by decide, by decide⟩

/-- C9 (amended): when the LLM data supplies no truthy `http_defaults`, or
an `http_defaults` dict without a truthy `domain`, the assembler simply
emits no HTTP Request Defaults element (`httpDefaultsComponent` is the
empty component list, no error) and compilation proceeds — the domain
check at line 1386 guards emission, not an exception. -/
theorem missing_domain_omits_defaults :
    (∀ (ps : List (String × Json)),
        pyTruthy (dictGetD ps "http_defaults" (Json.obj [])) = false →
        httpDefaultsComponent (Json.obj ps) = .ok []) ∧
    (∀ (ps hd : List (String × Json)),
        dictGetD ps "http_defaults" (Json.obj []) = .obj hd →
        pyTruthy (dictGetD hd "domain" Json.null) = false →
        httpDefaultsComponent (Json.obj ps) = .ok []) := by
  constructor
  · intro ps h
    unfold dictGetD at h
    simp [httpDefaultsComponent, pyGetD, pyGet, h, Bind.bind, Except.bind,
      pure, Except.pure, Except.map]
  · intro ps hd hget h
    unfold dictGetD at hget h
    by_cases ht : pyTruthy (Json.obj hd)
    · simp [httpDefaultsComponent, pyGetD, pyGet, hget, ht, h, Bind.bind,
        Except.bind, pure, Except.pure, Except.map]
    · simp [httpDefaultsComponent, pyGetD, pyGet, hget, ht, Bind.bind,
        Except.bind, pure, Except.pure, Except.map]

/-- C9 witness: both amended branches at concrete LLM data without a
server address. -/
theorem missing_domain_omits_defaults_witness :
    (httpDefaultsComponent (Json.obj [("tear_down_on_shutdown", Json.str "true")]) =
      .ok []) ∧
    (httpDefaultsComponent (Json.obj [("http_defaults", Json.obj [("path", Json.str "/x")])]) =
      .ok []) := by
  constructor
  · exact missing_domain_omits_defaults.1 [("tear_down_on_shutdown", Json.str "true")]
      (by decide)
  · exact missing_domain_omits_defaults.2 [("http_defaults", Json.obj [("path", Json.str "/x")])]
      [("path", Json.str "/x")] (by rfl) (by decide)

set_option maxRecDepth 100000 in
/-- C6 counterexample: an assertion entry carrying `isNot = true` and
`isOr = true` with `test_type = 2` is emitted with the test-type integer
`2` — not `2 | 4 = 6` — and with no OR attribute at all: the only boolean
attribute in the emitted element is `Assertion.assume_success`.  The claim
`final test-type = baseTestType | (4 if isNot else 0)` and `OR attribute
present iff isOr` is false on the code, which never reads either flag. -/
theorem assemble_assertions_isNot_isOr_ignored :
    (assemble_assertions (fun _ => 0)
        (Json.arr [Json.obj [("name", Json.str "A"), ("patterns", Json.arr [Json.str "ok"]),
          ("test_type", Json.num 2), ("isNot", Json.bool true), ("isOr", Json.bool true)]]) =
      .ok (tmpl_response_assertion "A" (tmpl_assertion_pattern "0" "ok") "2" ++
        "\n              <hashTree/>")) ∧
    pyCount (tmpl_response_assertion "A" (tmpl_assertion_pattern "0" "ok") "2" ++
        "\n              <hashTree/>")
      "<intProp name=\"Assertion.test_type\">2</intProp>" = 1 ∧
    pyCount (tmpl_response_assertion "A" (tmpl_assertion_pattern "0" "ok") "2" ++
        "\n              <hashTree/>")
      "<intProp name=\"Assertion.test_type\">6</intProp>" = 0 ∧
    pyCount (tmpl_response_assertion "A" (tmpl_assertion_pattern "0" "ok") "2" ++
        "\n              <hashTree/>") "<boolProp" = 1 ∧
    pyCount (tmpl_response_assertion "A" (tmpl_assertion_pattern "0" "ok") "2" ++
        "\n              <hashTree/>")
      "<boolProp name=\"Assertion.assume_success\">false</boolProp>" = 1 := by
  refine ⟨rfl, by decide, by decide, by decide, by decide⟩

/-- C6 (amended): the emitted test-type integer equals the input entry's
`test_type` value unchanged (defaulting to 2 when absent) — `isNot` is not
folded in by bit-OR — and no OR attribute is ever emitted: the rendered
element is the fixed template, which carries exactly one boolean attribute
(`assume_success`), whatever `isNot`/`isOr` fields the entry carries
(lookups read the first binding of a key, so the trailing `extra` fields
influence nothing). -/
theorem assemble_assertions_amended :
    ∀ (H : String → Int) (n p : String) (tt : Int) (extra : List (String × Json)),
      n ≠ "" → p ≠ "" →
      assemble_assertions H
          (Json.arr [Json.obj ([("name", Json.str n), ("patterns", Json.arr [Json.str p]),
            ("test_type", Json.num tt)] ++ extra)]) =
        .ok (tmpl_response_assertion (xmlEscapeStr n)
          (tmpl_assertion_pattern (toString (H p)) (xmlEscapeStr p)) (toString tt) ++
          "\n              <hashTree/>") := by
  intro H n p tt extra hn hp
  simp [assemble_assertions, assembleAssertionList, assembleOneAssertion,
    assemblePatterns, iterElems, pyGetD, pyGet, dictGet, pyTruthy,
    pyEscapeJson, pyHashJson, pyStr, pyJoin, hn, hp, Bind.bind, Except.bind,
    pure, Except.pure, Except.map, Option.getD, pyRepr]

/-- C6 witness: the amended theorem at a concrete assertion entry carrying
both flags. -/
theorem assemble_assertions_amended_witness :
    assemble_assertions (fun _ => 7)
        (Json.arr [Json.obj [("name", Json.str "check"), ("patterns", Json.arr [Json.str "\"RETURNCODE\":\"0000\""]),
          ("test_type", Json.num 34), ("isNot", Json.bool true), ("isOr", Json.bool false)]]) =
      .ok (tmpl_response_assertion (xmlEscapeStr "check")
        (tmpl_assertion_pattern (toString ((fun (_ : String) => (7 : Int)) "\"RETURNCODE\":\"0000\""))
          (xmlEscapeStr "\"RETURNCODE\":\"0000\"")) (toString (34 : Int)) ++
        "\n              <hashTree/>") :=
  assemble_assertions_amended (fun _ => 7) "check" "\"RETURNCODE\":\"0000\"" 34
    [("isNot", Json.bool true), ("isOr", Json.bool false)] (by decide) (by decide)

/-- C8 counterexample: the body `{"a":"b"}` with data set
`variableNames=["uid"]`, first-row value `"zz"`, matches nothing anywhere
(`noMatch` holds), yet `_parameterize_json_body` does not return the
original body string: it re-serializes it with 4-space indentation.  The
JSON content is unchanged, but the string is not "used as-is". -/
theorem parameterize_no_match_reserializes :
    (parameterize_json_body (some "\x7b\"a\":\"b\"\x7d")
        ⟨"d.csv", ["uid"], 1, some "uid\nzz\n"⟩ = "\x7b\n    \"a\": \"b\"\n\x7d") ∧
    ("\x7b\n    \"a\": \"b\"\n\x7d" ≠ "\x7b\"a\":\"b\"\x7d") ∧
    (noMatch ["uid"] (csvValueMap ⟨"d.csv", ["uid"], 1, some "uid\nzz\n"⟩)
        (Json.obj [("a", Json.str "b")]) = true) ∧
    (json_loads "\x7b\"a\":\"b\"\x7d" = some (Json.obj [("a", Json.str "b")])) ∧
    (json_loads "\x7b\n    \"a\": \"b\"\n\x7d" = some (Json.obj [("a", Json.str "b")])) := by
  refine ⟨rfl, by decide, rfl, rfl, rfl⟩

/-- C8 (amended): when no key and no value matches anywhere, the operation
is not an error and the body's parsed content is preserved unchanged — the
returned string is the re-serialization (4-space indent) of that unchanged
value, not necessarily the identical input string; and a body string that
does not parse as JSON is returned verbatim. -/
theorem parameterize_no_match_amended :
    (∀ (vars : List String) (vmap : List (String × String)) (j : Json),
        noMatch vars vmap j = true → recReplace vars vmap j = j) ∧
    (∀ (body : String) (csv : CsvInfo) (j : Json),
        body ≠ "" → csv.raw_content.getD "" ≠ "" → csv.variable_names ≠ [] →
        json_loads body = some j →
        noMatch csv.variable_names (csvValueMap csv) j = true →
        parameterize_json_body (some body) csv = json_dumps 4 j) ∧
    (∀ (body : String) (csv : CsvInfo),
        json_loads body = none →
        parameterize_json_body (some body) csv = body) := by
  refine ⟨recReplace_of_noMatch, ?_, ?_⟩
  · intro body csv j h1 h2 h3 hj hnm
    rw [parameterize_json_body_parsed body csv j h1 h2 h3 hj,
      recReplace_of_noMatch _ _ j hnm]
  · intro body csv h
    simp only [parameterize_json_body, Option.getD_some]
    split
    · rfl
    · rw [h]

/-- C8 witness: the amended theorem's hypotheses hold at the concrete
counterexample input (and at a non-JSON body). -/
theorem parameterize_no_match_amended_witness :
    (recReplace ["uid"] [("zz", "$\x7buid\x7d")] (Json.obj [("a", Json.str "b")]) =
      Json.obj [("a", Json.str "b")]) ∧
    (parameterize_json_body (some "\x7b\"a\":\"b\"\x7d")
        ⟨"d.csv", ["uid"], 1, some "uid\nzz\n"⟩ =
      json_dumps 4 (Json.obj [("a", Json.str "b")])) ∧
    (parameterize_json_body (some "not json")
        ⟨"d.csv", ["uid"], 1, some "uid\nzz\n"⟩ = "not json") := by
  refine ⟨?_, ?_, ?_⟩
  · exact parameterize_no_match_amended.1 ["uid"] [("zz", "$\x7buid\x7d")]
      (Json.obj [("a", Json.str "b")]) (by rfl)
  · exact parameterize_no_match_amended.2.1 "\x7b\"a\":\"b\"\x7d"
      ⟨"d.csv", ["uid"], 1, some "uid\nzz\n"⟩ (Json.obj [("a", Json.str "b")])
      (by decide) (by decide) (by decide) (by rfl) (by rfl)
  · exact parameterize_no_match_amended.2.2 "not json"
      ⟨"d.csv", ["uid"], 1, some "uid\nzz\n"⟩ (by rfl)

/-- C10: `_parameterize_json_body` is total by construction in this model
(the only Python exceptions reachable on its domain are caught and mapped
to the original body); a missing/empty body yields `""`, empty CSV raw
content or an empty variable list yields the body unchanged, a parse
failure yields the body unchanged, and in every case the result is either
`""`, the original body string, or the serialization of the fully
substituted parsed object — never a partially modified input string. -/
theorem parameterize_total_and_failure_identity :
    (∀ (csv : CsvInfo), parameterize_json_body none csv = "") ∧
    (∀ (csv : CsvInfo), parameterize_json_body (some "") csv = "") ∧
    (∀ (s : String) (csv : CsvInfo),
        csv.raw_content.getD "" = "" ∨ csv.variable_names = [] →
        parameterize_json_body (some s) csv = s) ∧
    (∀ (s : String) (csv : CsvInfo),
        json_loads s = none → parameterize_json_body (some s) csv = s) ∧
    (∀ (b : Option String) (csv : CsvInfo),
        parameterize_json_body b csv = b.getD "" ∨
        ∃ j, json_loads (b.getD "") = some j ∧
          parameterize_json_body b csv =
            json_dumps 4 (recReplace csv.variable_names (csvValueMap csv) j)) := by
  refine ⟨fun csv => rfl, fun csv => rfl, ?_, ?_, ?_⟩
  · intro s csv h
    simp only [parameterize_json_body, Option.getD_some]
    rcases h with h | h
    · by_cases hs : s = ""
      · rw [if_pos (Or.inl hs), hs]
      · rw [if_pos (Or.inr (Or.inl h))]
    · by_cases hs : s = ""
      · rw [if_pos (Or.inl hs), hs]
      · rw [if_pos (Or.inr (Or.inr h))]
  · intro s csv h
    simp only [parameterize_json_body, Option.getD_some]
    split
    · rfl
    · rw [h]
  · intro b csv
    simp only [parameterize_json_body]
    split
    · left
      rename_i hguard
      rcases hguard with h | _
      · rw [h]
      · rfl
    · cases hl : json_loads (b.getD "") with
      | none => left; rfl
      | some j => right; exact ⟨j, rfl, rfl⟩

/-- C10 witness: each guarded conjunct instantiated concretely. -/
theorem parameterize_total_witness :
    (parameterize_json_body (some "\x7b\"a\":1\x7d") ⟨"d.csv", [], 0, some "x\n"⟩ =
      "\x7b\"a\":1\x7d") ∧
    (parameterize_json_body (some "oops") ⟨"d.csv", ["v"], 1, some "v\n1\n"⟩ = "oops") := by
  refine ⟨?_, ?_⟩
  · exact parameterize_total_and_failure_identity.2.2.1 "\x7b\"a\":1\x7d"
      ⟨"d.csv", [], 0, some "x\n"⟩ (Or.inr rfl)
  · exact parameterize_total_and_failure_identity.2.2.2.1 "oops"
      ⟨"d.csv", ["v"], 1, some "v\n1\n"⟩ (by rfl)

end JmxGen
